import Mathlib

/-!
# GLComputeDemo: compute-render bridge

A shallow embedding of `src/main.cpp`: the `CustomRender` component (`init`,
`begin`, `end`), the render callback attached by `frame`, the three GLSL
shaders, and the part of the OpenGL state machine those functions drive.

* Single-precision floats are exact rationals rounded to binary32
  (round to nearest, ties to even); a non-finite result is `none`.
* OpenGL object names are natural numbers; bindings are registers that
  the binding commands overwrite.
* Shader image stores are incoherent writes: a texture keeps the texels
  that were written and, separately, the contents that texture fetches are
  guaranteed to observe, which `glMemoryBarrier` refreshes only when it is
  given `GL_TEXTURE_FETCH_BARRIER_BIT`.
-/

namespace GLComputeDemo

/-! ## Binary32 arithmetic -/

/-- The fraction `n / d` divided by `2 ^ k`, as numerator and denominator. -/
def divPow2 (n d : Nat) (k : Int) : Nat × Nat :=
  if 0 ≤ k then (n, d * 2 ^ k.toNat) else (n * 2 ^ (-k).toNat, d)

/-- The exponent `e` with `2 ^ e ≤ n / d < 2 ^ (e + 1)`, for positive `n / d`. -/
def floorLog2 (n d : Nat) : Int :=
  let e0 : Int := (Nat.log2 n : Int) - (Nat.log2 d : Int)
  let s := divPow2 n d e0
  if s.1 < s.2 then e0 - 1 else e0

/-- The binary32 result of an operation whose exact result is `q`: `q` rounded
to the nearest binary32 value, ties to even, and `none` on overflow. With `e`
the exponent of the leading bit of `|q|` (at least -126, below that the value is
subnormal), the result is the multiple of `2 ^ (e - 23)` nearest to `q`. -/
def roundF32 (q : ℚ) : Option ℚ :=
  let n := q.num.natAbs
  let e := max (floorLog2 n q.den) (-126)
  let s := divPow2 n q.den (e - 23)
  let r := s.1 / s.2
  let rem := s.1 % s.2
  let m := if s.2 < 2 * rem ∨ (2 * rem = s.2 ∧ r % 2 = 1) then r + 1 else r
  let t := divPow2 m 1 (23 - e)
  if 2 ^ 128 * t.2 ≤ t.1 then none
  else some (mkRat (if q.num < 0 then -(t.1 : Int) else t.1) t.2)

/-- A `float`: `some q` is the finite value `q`, `none` is an infinity or NaN. -/
abbrev F32 := Option ℚ

/-- Single-precision `a - b`. -/
def F32.sub (a b : F32) : F32 := do roundF32 ((← a) - (← b))

/-- Single-precision `a + b`. -/
def F32.add (a b : F32) : F32 := do roundF32 ((← a) + (← b))

/-- Single-precision `a * b`. -/
def F32.mul (a b : F32) : F32 := do roundF32 ((← a) * (← b))

/-- Single-precision `a / b`; a zero divisor gives an infinity or NaN. -/
def F32.div (a b : F32) : F32 := do
  let x ← a
  let y ← b
  if y = 0 then none else roundF32 (x / y)

/-- Conversion `float(i)` of an integer. -/
def F32.ofInt (i : Int) : F32 := roundF32 i

/-- A floating-point literal of the source text. -/
def F32.lit (q : ℚ) : F32 := roundF32 q

/-- Truncation toward zero. -/
def truncate (q : ℚ) : Int := if 0 ≤ q then ⌊q⌋ else ⌈q⌉

/-- The implicit C++ conversion of a `float` argument to a 32-bit `GLint` or
`GLsizei`: truncation toward zero, undefined (`none`) when the value is not
finite or the truncated value does not fit. -/
def F32.toGLint (a : F32) : Option Int := do
  let q ← a
  let t := truncate q
  if -2 ^ 31 ≤ t ∧ t < 2 ^ 31 then some t else none

/-! ## Values exchanged with the host GUI -/

/-- The `ImVec2` of the GUI library; the fields are finite floats. -/
structure ImVec2 where
  x : ℚ
  y : ℚ

/-- The `ImVec4` of the GUI library; as a clip rectangle `(x, y)` is the
top-left corner and `(z, w)` the bottom-right corner. -/
structure ImVec4 where
  x : ℚ
  y : ℚ
  z : ℚ
  w : ℚ

/-- The render callbacks of this program: the one lambda of `frame`. -/
inductive ImDrawCallback
  | computeAndDraw
  deriving DecidableEq, Repr

/-- The fields of `ImDrawCmd` the program reads. `UserCallback = none` is an
ordinary draw command of the GUI. -/
structure ImDrawCmd where
  ClipRect : ImVec4
  UserCallback : Option ImDrawCallback
  UserCallbackData : Option Nat

/-! ## OpenGL state -/

/-- A GLSL `vec4`. -/
structure Vec4 where
  x : F32
  y : F32
  z : F32
  w : F32
  deriving DecidableEq

/-- A GLSL `vec2`. -/
structure Vec2 where
  x : F32
  y : F32
  deriving DecidableEq

/-- Image formats. -/
inductive Format
  | GL_RGBA32F
  | otherFormat
  deriving DecidableEq, Repr

/-- Access of an image unit binding. -/
inductive Access
  | GL_READ_ONLY
  | GL_WRITE_ONLY
  | GL_READ_WRITE
  deriving DecidableEq, Repr

/-- The three shader source texts of `init`, by the name of their variable. -/
inductive ShaderSource
  | vertex
  | fragment
  | code
  deriving DecidableEq, Repr

/-- Shader stages. -/
inductive ShaderType
  | GL_VERTEX_SHADER
  | GL_FRAGMENT_SHADER
  | GL_COMPUTE_SHADER
  deriving DecidableEq, Repr

/-- The queries `begin` makes. -/
inductive Pname
  | GL_CURRENT_PROGRAM
  | GL_VERTEX_ARRAY_BINDING
  deriving DecidableEq, Repr

/-- Texture parameters set by `init`. -/
inductive TexParam
  | GL_TEXTURE_MAX_LEVEL
  | GL_TEXTURE_MIN_FILTER
  | GL_TEXTURE_MAG_FILTER
  deriving DecidableEq, Repr

/-- The value `GL_LINEAR`. -/
def GL_LINEAR : Nat := 0x2601

/-- The value `GL_TRIANGLES`. -/
def GL_TRIANGLES : Nat := 0x0004

/-- The bit `GL_TEXTURE_FETCH_BARRIER_BIT`. -/
def GL_TEXTURE_FETCH_BARRIER_BIT : Nat := 0x00000008

/-- The bit `GL_SHADER_IMAGE_ACCESS_BARRIER_BIT`. -/
def GL_SHADER_IMAGE_ACCESS_BARRIER_BIT : Nat := 0x00000020

/-- A shader object. -/
structure Shader where
  type : ShaderType
  source : Option ShaderSource
  compileStatus : Bool
  deriving DecidableEq

/-- A program object. -/
structure Program where
  attached : List Nat
  linkStatus : Bool
  /-- The source of the compute stage of the linked executable, when it has one. -/
  computeStage : Option ShaderSource
  /-- Whether the linked executable has a vertex and a fragment stage from `init`. -/
  displayStages : Bool
  deriving DecidableEq

/-- A texture object. `texels` are the contents as written, shader image stores
included; `fetched` are the contents that texture fetches observe. -/
structure Texture where
  width : Nat
  height : Nat
  format : Format
  maxLevel : Nat
  minFilter : Nat
  magFilter : Nat
  texels : Nat → Nat → Vec4
  fetched : Nat → Nat → Vec4

/-- The binding of an image unit. -/
structure ImageUnit where
  texture : Nat
  level : Nat
  layered : Bool
  layer : Nat
  access : Access
  format : Format
  deriving DecidableEq

/-- Every call the program makes, in the order it makes them: the OpenGL
commands with their arguments (and, for a status query, the value returned),
the entries of `CustomRender::begin` and `CustomRender::end`, `printf` and
`exit`. -/
inductive Event
  | callBegin
  | callEnd
  | glGetIntegerv (pname : Pname)
  | glBindVertexArray (array : Nat)
  | glViewport (x y width height : Int)
  | glUseProgram (program : Nat)
  | glBindImageTexture (unit texture level : Nat) (layered : Bool) (layer : Nat)
      (access : Access) (format : Format)
  | glDispatchCompute (x y z : Nat)
  | glMemoryBarrier (barriers : Nat)
  | glBindTextureUnit (unit texture : Nat)
  | glDrawArrays (mode first count : Nat)
  | glCreateShader (type : ShaderType)
  | glShaderSource (shader : Nat) (source : ShaderSource)
  | glCompileShader (shader : Nat)
  | glGetShaderiv (shader : Nat) (result : Bool)
  | glGetShaderInfoLog (shader : Nat)
  | glCreateProgram
  | glAttachShader (program shader : Nat)
  | glLinkProgram (program : Nat)
  | glGetProgramiv (program : Nat) (result : Bool)
  | glGetProgramInfoLog (program : Nat)
  | glGenVertexArrays
  | glCreateTextures
  | glTextureParameteri (texture : Nat) (pname : TexParam) (param : Nat)
  | glTextureStorage2D (texture levels : Nat) (format : Format) (width height : Nat)
  | printf (text : String)
  | exit (status : Int)
  deriving DecidableEq

/-- What the OpenGL implementation decides: the outcome of compiling and
linking, the diagnostic logs, and the contents of freshly allocated storage. -/
structure Driver where
  compiles : ShaderSource → Bool
  links : List ShaderSource → Bool
  shaderInfoLog : ShaderSource → String
  programInfoLog : List ShaderSource → String
  freshTexels : Nat → Nat → Vec4

/-- The part of the OpenGL context the program touches. -/
structure GLState where
  currentProgram : Nat
  vertexArrayBinding : Nat
  viewport : Int × Int × Int × Int
  textureUnits : Nat → Nat
  imageUnits : Nat → ImageUnit
  shaders : Nat → Option Shader
  programs : Nat → Option Program
  textures : Nat → Option Texture
  /-- The next unused shader or program name. -/
  nextObject : Nat
  /-- The next unused texture name. -/
  nextTexture : Nat
  /-- The next unused vertex array name. -/
  nextVertexArray : Nat
  /-- The limit `GL_MAX_VIEWPORT_DIMS`. -/
  maxViewportDims : Nat × Nat
  /-- The texture contents the fragment stage of the last draw sampled. -/
  sampled : Option (Nat → Nat → Vec4)
  driver : Driver
  log : List Event

/-- Append a call to the log. -/
def GLState.record (s : GLState) (e : Event) : GLState :=
  { s with log := s.log ++ [e] }

/-- The command `glGetIntegerv` for the two bindings `begin` saves. -/
def glGetIntegerv (pname : Pname) (s : GLState) : Nat × GLState :=
  (match pname with
    | .GL_CURRENT_PROGRAM => s.currentProgram
    | .GL_VERTEX_ARRAY_BINDING => s.vertexArrayBinding,
   s.record (.glGetIntegerv pname))

/-- The command `glBindVertexArray`. -/
def glBindVertexArray (array : Nat) (s : GLState) : GLState :=
  { s with vertexArrayBinding := array, log := s.log ++ [.glBindVertexArray array] }

/-- The command `glUseProgram`. -/
def glUseProgram (program : Nat) (s : GLState) : GLState :=
  { s with currentProgram := program, log := s.log ++ [.glUseProgram program] }

/-- The command `glViewport`: a negative width or height is `GL_INVALID_VALUE`
and leaves the viewport as it is; width and height are clamped to
`GL_MAX_VIEWPORT_DIMS`. -/
def glViewport (x y width height : Int) (s : GLState) : GLState :=
  { s with
    viewport :=
      if width < 0 ∨ height < 0 then s.viewport
      else (x, y, min width s.maxViewportDims.1, min height s.maxViewportDims.2),
    log := s.log ++ [.glViewport x y width height] }

/-- The command `glBindImageTexture`. -/
def glBindImageTexture (unit texture level : Nat) (layered : Bool) (layer : Nat)
    (access : Access) (format : Format) (s : GLState) : GLState :=
  { s with
    imageUnits := fun u =>
      if u = unit then ⟨texture, level, layered, layer, access, format⟩ else s.imageUnits u,
    log := s.log ++ [.glBindImageTexture unit texture level layered layer access format] }

/-- The command `glBindTextureUnit`. -/
def glBindTextureUnit (unit texture : Nat) (s : GLState) : GLState :=
  { s with
    textureUnits := fun u => if u = unit then texture else s.textureUnits u,
    log := s.log ++ [.glBindTextureUnit unit texture] }

/-- The command `glMemoryBarrier`: with `GL_TEXTURE_FETCH_BARRIER_BIT`, texture
fetches issued after it observe the shader writes before it. The other bits
order kinds of access the program never performs after a barrier. -/
def glMemoryBarrier (barriers : Nat) (s : GLState) : GLState :=
  { s with
    textures :=
      if barriers &&& GL_TEXTURE_FETCH_BARRIER_BIT ≠ 0 then
        fun n => (s.textures n).map fun t => { t with fetched := t.texels }
      else s.textures,
    log := s.log ++ [.glMemoryBarrier barriers] }

/-! ## Object creation, compilation and linking -/

/-- The command `glCreateShader`: a new shader object under a fresh name. -/
def glCreateShader (type : ShaderType) (s : GLState) : Nat × GLState :=
  (s.nextObject,
   { s with
     shaders := fun n => if n = s.nextObject then some ⟨type, none, false⟩ else s.shaders n,
     nextObject := s.nextObject + 1,
     log := s.log ++ [.glCreateShader type] })

/-- The command `glShaderSource`. -/
def glShaderSource (shader : Nat) (source : ShaderSource) (s : GLState) : GLState :=
  { s with
    shaders := fun n =>
      if n = shader then (s.shaders n).map fun o => { o with source := some source }
      else s.shaders n,
    log := s.log ++ [.glShaderSource shader source] }

/-- The command `glCompileShader`: the driver decides the compile status. -/
def glCompileShader (shader : Nat) (s : GLState) : GLState :=
  { s with
    shaders := fun n =>
      if n = shader then (s.shaders n).map fun o =>
        { o with compileStatus :=
            match o.source with
            | some src => s.driver.compiles src
            | none => false }
      else s.shaders n,
    log := s.log ++ [.glCompileShader shader] }

/-- The query `glGetShaderiv(shader, GL_COMPILE_STATUS, &result)`. -/
def glGetShaderiv (shader : Nat) (s : GLState) : Bool × GLState :=
  let result := match s.shaders shader with
    | some o => o.compileStatus
    | none => false
  (result, s.record (.glGetShaderiv shader result))

/-- The query `glGetShaderInfoLog`: the log, cut to fit the buffer with its
terminating zero. -/
def glGetShaderInfoLog (shader bufSize : Nat) (s : GLState) : String × GLState :=
  let text := match (s.shaders shader).bind fun o => o.source with
    | some src => s.driver.shaderInfoLog src
    | none => ""
  (text.take (bufSize - 1), s.record (.glGetShaderInfoLog shader))

/-- The command `glCreateProgram`: a new program object under a fresh name. -/
def glCreateProgram (s : GLState) : Nat × GLState :=
  (s.nextObject,
   { s with
     programs := fun n => if n = s.nextObject then some ⟨[], false, none, false⟩ else s.programs n,
     nextObject := s.nextObject + 1,
     log := s.log ++ [.glCreateProgram] })

/-- The command `glAttachShader`. -/
def glAttachShader (program shader : Nat) (s : GLState) : GLState :=
  { s with
    programs := fun n =>
      if n = program then (s.programs n).map fun o => { o with attached := o.attached ++ [shader] }
      else s.programs n,
    log := s.log ++ [.glAttachShader program shader] }

/-- The compiled shader objects among the given names. -/
def attachedShaders (s : GLState) (names : List Nat) : List Shader :=
  names.filterMap s.shaders

/-- The command `glLinkProgram`: linking fails when an attached shader is not
compiled, and otherwise the driver decides. -/
def glLinkProgram (program : Nat) (s : GLState) : GLState :=
  { s with
    programs := fun n =>
      if n = program then (s.programs n).map fun o =>
        let sh := attachedShaders s o.attached
        let ok := sh.all (fun (x : Shader) => x.compileStatus) && s.driver.links (sh.filterMap fun (x : Shader) => x.source)
        { o with
          linkStatus := ok,
          computeStage :=
            if ok then (sh.find? fun (x : Shader) => x.type = .GL_COMPUTE_SHADER).bind fun x => x.source
            else none,
          displayStages :=
            ok && sh.any (fun (x : Shader) => x.type = .GL_VERTEX_SHADER && x.source = some .vertex)
              && sh.any (fun (x : Shader) => x.type = .GL_FRAGMENT_SHADER && x.source = some .fragment) }
      else s.programs n,
    log := s.log ++ [.glLinkProgram program] }

/-- The query `glGetProgramiv(program, GL_LINK_STATUS, &result)`. -/
def glGetProgramiv (program : Nat) (s : GLState) : Bool × GLState :=
  let result := match s.programs program with
    | some o => o.linkStatus
    | none => false
  (result, s.record (.glGetProgramiv program result))

/-- The query `glGetProgramInfoLog`. -/
def glGetProgramInfoLog (program bufSize : Nat) (s : GLState) : String × GLState :=
  let text := match s.programs program with
    | some o => s.driver.programInfoLog ((attachedShaders s o.attached).filterMap fun (x : Shader) => x.source)
    | none => ""
  (text.take (bufSize - 1), s.record (.glGetProgramInfoLog program))

/-- The command `glGenVertexArrays(1, &array)`. -/
def glGenVertexArrays (s : GLState) : Nat × GLState :=
  (s.nextVertexArray,
   { s with nextVertexArray := s.nextVertexArray + 1, log := s.log ++ [.glGenVertexArrays] })

/-- The command `glCreateTextures(GL_TEXTURE_2D, 1, &t)`: a texture object
without storage. -/
def glCreateTextures (s : GLState) : Nat × GLState :=
  (s.nextTexture,
   { s with
     textures := fun n =>
       if n = s.nextTexture then
         some ⟨0, 0, .otherFormat, 1000, 0x2702, GL_LINEAR, s.driver.freshTexels, s.driver.freshTexels⟩
       else s.textures n,
     nextTexture := s.nextTexture + 1,
     log := s.log ++ [.glCreateTextures] })

/-- The command `glTextureParameteri`. -/
def glTextureParameteri (texture : Nat) (pname : TexParam) (param : Nat) (s : GLState) :
    GLState :=
  { s with
    textures := fun n =>
      if n = texture then (s.textures n).map fun t =>
        match pname with
        | .GL_TEXTURE_MAX_LEVEL => { t with maxLevel := param }
        | .GL_TEXTURE_MIN_FILTER => { t with minFilter := param }
        | .GL_TEXTURE_MAG_FILTER => { t with magFilter := param }
      else s.textures n,
    log := s.log ++ [.glTextureParameteri texture pname param] }

/-- The command `glTextureStorage2D`: immutable storage of the given size and
format, with contents the driver leaves undefined. -/
def glTextureStorage2D (texture levels : Nat) (format : Format) (width height : Nat)
    (s : GLState) : GLState :=
  { s with
    textures := fun n =>
      if n = texture then (s.textures n).map fun t =>
        { t with width := width, height := height, format := format,
                 texels := s.driver.freshTexels, fetched := s.driver.freshTexels }
      else s.textures n,
    log := s.log ++ [.glTextureStorage2D texture levels format width height] }

/-! ## The shaders -/

/-- The conversion `ivec2(...)` of an unsigned component. -/
def toInt32 (n : Nat) : Int :=
  if n % 2 ^ 32 < 2 ^ 31 then (n % 2 ^ 32 : Nat) else (n % 2 ^ 32 : Nat) - 2 ^ 32

/-- The GLSL built-in `imageSize`. -/
def imageSize (color : Texture) : Int × Int := (color.width, color.height)

/-- The GLSL built-in `imageStore`: a store outside the image has no effect. -/
def imageStore (color : Texture) (P : Int × Int) (data : Vec4) : Texture :=
  if 0 ≤ P.1 ∧ P.1 < color.width ∧ 0 ≤ P.2 ∧ P.2 < color.height then
    { color with
      texels := fun x y => if x = P.1.toNat ∧ y = P.2.toNat then data else color.texels x y }
  else color

/-- The `main` of the compute shader `code`, for one invocation. -/
def computeMain (gl_GlobalInvocationID : Nat × Nat × Nat) (color : Texture) : Texture :=
  let uv : Int × Int := (toInt32 gl_GlobalInvocationID.1, toInt32 gl_GlobalInvocationID.2.1)
  let size := imageSize color
  let fragment : Vec4 :=
    ⟨F32.div (F32.ofInt uv.1) (F32.ofInt size.1),
     F32.div (F32.ofInt uv.2) (F32.ofInt size.2),
     F32.lit (2 / 10),
     F32.lit 1⟩
  imageStore color uv fragment

/-- The work group size `layout(local_size_x = 1, local_size_y = 1) in`. -/
def gl_WorkGroupSize : Nat × Nat × Nat := (1, 1, 1)

/-- The points `(x, y, z)` below the given bounds. -/
def grid (n : Nat × Nat × Nat) : List (Nat × Nat × Nat) :=
  (List.range n.2.2).flatMap fun z =>
    (List.range n.2.1).flatMap fun y =>
      (List.range n.1).map fun x => (x, y, z)

/-- One shader invocation of a dispatch. -/
structure Invocation where
  gl_WorkGroupID : Nat × Nat × Nat
  gl_LocalInvocationID : Nat × Nat × Nat
  deriving DecidableEq

/-- The invocations of a dispatch of `num_groups` work groups. -/
def invocations (num_groups : Nat × Nat × Nat) : List Invocation :=
  (grid num_groups).flatMap fun g => (grid gl_WorkGroupSize).map fun l => ⟨g, l⟩

/-- The GLSL built-in `gl_GlobalInvocationID`. -/
def Invocation.gl_GlobalInvocationID (i : Invocation) : Nat × Nat × Nat :=
  (i.gl_WorkGroupID.1 * gl_WorkGroupSize.1 + i.gl_LocalInvocationID.1,
   i.gl_WorkGroupID.2.1 * gl_WorkGroupSize.2.1 + i.gl_LocalInvocationID.2.1,
   i.gl_WorkGroupID.2.2 * gl_WorkGroupSize.2.2 + i.gl_LocalInvocationID.2.2)

/-- The texel an invocation of `code` stores to. -/
def Invocation.texel (i : Invocation) : Int × Int :=
  (toInt32 i.gl_GlobalInvocationID.1, toInt32 i.gl_GlobalInvocationID.2.1)

/-- All invocations of a dispatch applied to the image of unit 0. -/
def runCompute (num_groups : Nat × Nat × Nat) (color : Texture) : Texture :=
  (invocations num_groups).foldl (fun t i => computeMain i.gl_GlobalInvocationID t) color

/-- The command `glDispatchCompute`: with a linked compute program current,
its invocations run on the image bound to unit 0 (`binding = 0`). -/
def glDispatchCompute (x y z : Nat) (s : GLState) : GLState :=
  let unit := s.imageUnits 0
  { s with
    textures :=
      match s.programs s.currentProgram, s.textures unit.texture with
      | some p, some t =>
        if p.linkStatus ∧ p.computeStage = some .code ∧ unit.access ≠ .GL_READ_ONLY
            ∧ unit.level = 0 ∧ unit.format = .GL_RGBA32F ∧ t.format = .GL_RGBA32F then
          fun n => if n = unit.texture then some (runCompute (x, y, z) t) else s.textures n
        else s.textures
      | _, _ => s.textures,
    log := s.log ++ [.glDispatchCompute x y z] }

/-- The constant array `pos` of the vertex shader. -/
def pos : List Vec2 :=
  [⟨F32.lit (-1), F32.lit (-1)⟩, ⟨F32.lit 1, F32.lit (-1)⟩,
   ⟨F32.lit 1, F32.lit 1⟩, ⟨F32.lit (-1), F32.lit 1⟩]

/-- The constant array `index` of the vertex shader. -/
def index : List Nat := [0, 1, 2, 0, 2, 3]

/-- The `main` of the vertex shader: `gl_Position` and `uv`; an index outside
the arrays is undefined. -/
def vertexMain (gl_VertexID : Nat) : Option (Vec4 × Vec2) := do
  let v ← pos[← index[gl_VertexID]?]?
  let gl_Position : Vec4 := ⟨v.x, v.y, F32.lit 0, F32.lit 1⟩
  let uv : Vec2 :=
    ⟨F32.add (F32.mul v.x (F32.lit (5 / 10))) (F32.lit (5 / 10)),
     F32.add (F32.mul v.y (F32.lit (5 / 10))) (F32.lit (5 / 10))⟩
  some (gl_Position, uv)

/-- The command `glDrawArrays`: with the display program current, the fragment
shader samples `texture0` (`binding = 0`), that is the contents texture fetches
observe of the texture bound to texture unit 0. -/
def glDrawArrays (mode first count : Nat) (s : GLState) : GLState :=
  { s with
    sampled :=
      match s.programs s.currentProgram, s.textures (s.textureUnits 0) with
      | some p, some t => if p.linkStatus ∧ p.displayStages then some t.fetched else s.sampled
      | _, _ => s.sampled,
    log := s.log ++ [.glDrawArrays mode first count] }

/-! ## The component `CustomRender` -/

/-- The member `render` of `CustomRender`. -/
structure CustomRender.Render where
  program : Nat
  vao : Nat
  deriving DecidableEq

/-- The member `compute` of `CustomRender`. -/
structure CustomRender.Compute where
  texture : Nat
  program : Nat
  deriving DecidableEq

/-- The member `save` of `CustomRender`. -/
structure CustomRender.Save where
  program : Nat
  vao : Nat
  deriving DecidableEq

/-- The struct `CustomRender`. -/
structure CustomRender where
  render : CustomRender.Render
  compute : CustomRender.Compute
  save : CustomRender.Save
  deriving DecidableEq

/-- The process: the OpenGL context, the global `gpu`, what the host reports
(`sapp_dpi_scale()` and `ImGui::GetIO().DisplaySize`), the standard output and
the exit status once the process has exited. -/
structure World where
  gl : GLState
  gpu : CustomRender
  sapp_dpi_scale : ℚ
  DisplaySize : ImVec2
  stdout : List String
  exitStatus : Option Int

/-- The call `printf(text)`. -/
def printf (text : String) (w : World) : World :=
  { w with stdout := w.stdout ++ [text], gl := w.gl.record (.printf text) }

/-- The call `exit(status)`. -/
def exit (status : Int) (w : World) : World :=
  { w with exitStatus := some status, gl := w.gl.record (.exit status) }

/-- The lambda `checkShader` of `init`; `.error` is the process after `exit`. -/
def CustomRender.init.checkShader (shader : Nat) (w : World) : Except World World :=
  let (result, gl) := glGetShaderiv shader w.gl
  if result = false then
    let (buffer, gl) := glGetShaderInfoLog shader 1024 gl
    let w := printf ("ERROR Shader Compilation failed\n" ++ buffer) { w with gl := gl }
    .error (exit (-1) w)
  else .ok { w with gl := gl }

/-- The lambda `checkProgram` of `init`; `.error` is the process after `exit`. -/
def CustomRender.init.checkProgram (program : Nat) (w : World) : Except World World :=
  let (result, gl) := glGetProgramiv program w.gl
  if result = false then
    let (buffer, gl) := glGetProgramInfoLog program 1024 gl
    let w := printf ("ERROR PROGRAM LINK failed\n" ++ buffer) { w with gl := gl }
    .error (exit (-2) w)
  else .ok { w with gl := gl }

/-- The function `CustomRender::init`. -/
def CustomRender.init (w : World) : Except World World := do
  -- Rendering (to display a single texture)
  let (sv, gl) := glCreateShader .GL_VERTEX_SHADER w.gl
  let gl := glShaderSource sv .vertex gl
  let gl := glCompileShader sv gl
  let w ← CustomRender.init.checkShader sv { w with gl := gl }
  let (sf, gl) := glCreateShader .GL_FRAGMENT_SHADER w.gl
  let gl := glShaderSource sf .fragment gl
  let gl := glCompileShader sf gl
  let w ← CustomRender.init.checkShader sf { w with gl := gl }
  let (program, gl) := glCreateProgram w.gl
  let w := { w with gl := gl, gpu := { w.gpu with render := { w.gpu.render with program := program } } }
  let gl := glAttachShader w.gpu.render.program sv w.gl
  let gl := glAttachShader w.gpu.render.program sf gl
  let gl := glLinkProgram w.gpu.render.program gl
  let w ← CustomRender.init.checkProgram w.gpu.render.program { w with gl := gl }
  let (vao, gl) := glGenVertexArrays w.gl
  let w := { w with gl := gl, gpu := { w.gpu with render := { w.gpu.render with vao := vao } } }
  -- Init compute shader part
  let (t, gl) := glCreateTextures w.gl
  let gl := glTextureParameteri t .GL_TEXTURE_MAX_LEVEL 0 gl
  let gl := glTextureParameteri t .GL_TEXTURE_MIN_FILTER GL_LINEAR gl
  let gl := glTextureParameteri t .GL_TEXTURE_MAG_FILTER GL_LINEAR gl
  let gl := glTextureStorage2D t 1 .GL_RGBA32F 512 512 gl
  let w := { w with gl := gl, gpu := { w.gpu with compute := { w.gpu.compute with texture := t } } }
  let (shader, gl) := glCreateShader .GL_COMPUTE_SHADER w.gl
  let gl := glShaderSource shader .code gl
  let gl := glCompileShader shader gl
  let w ← CustomRender.init.checkShader shader { w with gl := gl }
  let (program, gl) := glCreateProgram w.gl
  let w := { w with gl := gl, gpu := { w.gpu with compute := { w.gpu.compute with program := program } } }
  let gl := glAttachShader w.gpu.compute.program shader w.gl
  let gl := glLinkProgram w.gpu.compute.program gl
  CustomRender.init.checkProgram w.gpu.compute.program { w with gl := gl }

/-- The four arguments `begin` passes to `glViewport`: each is a `float`
expression converted to an integer parameter. -/
def CustomRender.begin.viewport (cmd : ImDrawCmd) (dpi : ℚ) (size : ImVec2) :
    Option (Int × Int × Int × Int) := do
  let dpi : F32 := some dpi
  let w := F32.sub (some cmd.ClipRect.w) (some cmd.ClipRect.y)
  let x ← (F32.mul (some cmd.ClipRect.x) dpi).toGLint
  let y ← (F32.mul (F32.sub (F32.sub (some size.y) (some cmd.ClipRect.y)) w) dpi).toGLint
  let width ← (F32.mul (F32.sub (some cmd.ClipRect.z) (some cmd.ClipRect.x)) dpi).toGLint
  let height ← (F32.mul w dpi).toGLint
  some (x, y, width, height)

/-- The function `CustomRender::begin`; `none` when a conversion of a viewport
argument is undefined. -/
def CustomRender.begin (cmd : ImDrawCmd) (w : World) : Option World := do
  let gl := w.gl.record .callBegin
  -- save gl state
  let (program, gl) := glGetIntegerv .GL_CURRENT_PROGRAM gl
  let gpu := { w.gpu with save := { w.gpu.save with program := program } }
  let (vao, gl) := glGetIntegerv .GL_VERTEX_ARRAY_BINDING gl
  let gpu := { gpu with save := { gpu.save with vao := vao } }
  let gl := glBindVertexArray gpu.render.vao gl
  -- adjust viewport
  let (x, y, width, height) ← CustomRender.begin.viewport cmd w.sapp_dpi_scale w.DisplaySize
  some { w with gl := glViewport x y width height gl, gpu := gpu }

/-- The function `CustomRender::end`. -/
def CustomRender.end (w : World) : World :=
  let gl := w.gl.record .callEnd
  -- restore
  let gl := glBindVertexArray w.gpu.save.vao gl
  let gl := glUseProgram w.gpu.save.program gl
  { w with gl := gl }

/-! ## The frame -/

/-- The part `COMPUTE` of the render callback. -/
def frame.compute (w : World) : World :=
  let gl := glBindImageTexture 0 w.gpu.compute.texture 0 false 0 .GL_WRITE_ONLY .GL_RGBA32F w.gl
  let gl := glUseProgram w.gpu.compute.program gl
  let gl := glDispatchCompute 512 512 1 gl
  let gl := glMemoryBarrier GL_SHADER_IMAGE_ACCESS_BARRIER_BIT gl
  { w with gl := gl }

/-- The part `RENDER` of the render callback, up to the draw. -/
def frame.render (w : World) : World :=
  let gl := glUseProgram w.gpu.render.program w.gl
  let gl := glBindTextureUnit 0 w.gpu.compute.texture gl
  let gl := glDrawArrays GL_TRIANGLES 0 6 gl
  { w with gl := gl }

/-- The render callback, the lambda that `frame` attaches to the draw list. -/
def frame.callback (cmd : ImDrawCmd) (w : World) : Option World := do
  let w ← CustomRender.begin cmd w
  let w := frame.compute w
  let w := frame.render w
  some (CustomRender.end w)

/-- The state of the GUI that `frame` meets: whether the panel is visible this
frame (what `ImGui::Begin` returns), the clip rectangle of the panel, and the
draw list of the panel. -/
structure ImGui where
  visible : Bool
  ClipRect : ImVec4
  NextWindowSize : Option ImVec2
  DrawList : List ImDrawCmd
  /-- The windows begun and not ended. -/
  stack : List String

/-- The call `ImGui::SetNextWindowSize`. -/
def ImGui.SetNextWindowSize (size : ImVec2) (ui : ImGui) : ImGui :=
  { ui with NextWindowSize := some size }

/-- The call `ImGui::Begin`: the result tells whether the panel is visible. -/
def ImGui.Begin (name : String) (ui : ImGui) : Bool × ImGui :=
  (ui.visible, { ui with stack := name :: ui.stack, NextWindowSize := none })

/-- The call `ImGui::GetWindowDrawList()->AddCallback(callback, callback_data)`. -/
def ImGui.AddCallback (callback : ImDrawCallback) (callback_data : Option Nat) (ui : ImGui) :
    ImGui :=
  { ui with DrawList := ui.DrawList ++ [⟨ui.ClipRect, some callback, callback_data⟩] }

/-- The call `ImGui::End`. -/
def ImGui.End (ui : ImGui) : ImGui :=
  { ui with stack := ui.stack.tail }

/-- The function `frame`. -/
def frame (ui : ImGui) : ImGui :=
  let ui := ui.SetNextWindowSize ⟨512, 512⟩
  let (visible, ui) := ui.Begin "TEST"
  if visible then
    let ui := ui.AddCallback .computeAndDraw none
    ui.End
  else ui

/-- The renderer of the host executing a draw list: a command with a callback
runs the callback; the GUI's own draw commands are not part of this program. -/
def renderDrawList : List ImDrawCmd → World → Option World
  | [], w => some w
  | cmd :: rest, w =>
    match cmd.UserCallback with
    | some .computeAndDraw => (frame.callback cmd w).bind (renderDrawList rest)
    | none => renderDrawList rest w

/-- The OpenGL commands that change a binding or run a shader, as the host or
the callback may issue them between `begin` and `end`. -/
inductive GLCommand
  | useProgram (program : Nat)
  | bindVertexArray (array : Nat)
  | viewport (x y width height : Int)
  | bindImageTexture (unit texture level : Nat) (layered : Bool) (layer : Nat)
      (access : Access) (format : Format)
  | bindTextureUnit (unit texture : Nat)
  | dispatchCompute (x y z : Nat)
  | memoryBarrier (barriers : Nat)
  | drawArrays (mode first count : Nat)

/-- Issue one command. -/
def GLCommand.run : GLCommand → GLState → GLState
  | .useProgram p => glUseProgram p
  | .bindVertexArray a => glBindVertexArray a
  | .viewport x y w h => glViewport x y w h
  | .bindImageTexture u t l ld la a f => glBindImageTexture u t l ld la a f
  | .bindTextureUnit u t => glBindTextureUnit u t
  | .dispatchCompute x y z => glDispatchCompute x y z
  | .memoryBarrier b => glMemoryBarrier b
  | .drawArrays m f c => glDrawArrays m f c

/-- Issue a sequence of commands; the component's own data is not touched. -/
def runCommands (cmds : List GLCommand) (w : World) : World :=
  { w with gl := cmds.foldl (fun s c => c.run s) w.gl }

/-! ## The viewport as the specification words it -/

/-- The viewport rectangle in the specification's words: `x = clip.x * dpi`,
`y = (displayHeight - clip.y - rowHeight) * dpi`, `width = (clip.right - clip.x) * dpi`
and `height = (clip.bottom - clip.y) * dpi`, with `rowHeight = clip.bottom - clip.y`,
in exact arithmetic. -/
def specViewport (clip : ImVec4) (displayHeight dpi : ℚ) : ℚ × ℚ × ℚ × ℚ :=
  let rowHeight := clip.w - clip.y
  (clip.x * dpi, (displayHeight - clip.y - rowHeight) * dpi, (clip.z - clip.x) * dpi,
   rowHeight * dpi)

/-- Every float operation of the viewport computation of `begin` is exact: it
returns the exact result, which is a binary32 value. -/
def ExactViewport (clip : ImVec4) (displayHeight dpi : ℚ) : Prop :=
  roundF32 (clip.w - clip.y) = some (clip.w - clip.y)
  ∧ roundF32 (clip.x * dpi) = some (clip.x * dpi)
  ∧ roundF32 (displayHeight - clip.y) = some (displayHeight - clip.y)
  ∧ roundF32 (displayHeight - clip.y - (clip.w - clip.y))
      = some (displayHeight - clip.y - (clip.w - clip.y))
  ∧ roundF32 ((displayHeight - clip.y - (clip.w - clip.y)) * dpi)
      = some ((displayHeight - clip.y - (clip.w - clip.y)) * dpi)
  ∧ roundF32 (clip.z - clip.x) = some (clip.z - clip.x)
  ∧ roundF32 ((clip.z - clip.x) * dpi) = some ((clip.z - clip.x) * dpi)
  ∧ roundF32 ((clip.w - clip.y) * dpi) = some ((clip.w - clip.y) * dpi)

/-- The truncated value is a 32-bit signed integer. -/
def FitsGLint (q : ℚ) : Prop := -2 ^ 31 ≤ truncate q ∧ truncate q < 2 ^ 31

/-! ## Concrete states -/

/-- A driver that compiles and links everything and clears fresh storage. -/
def Driver.accepting : Driver :=
  { compiles := fun _ => true
    links := fun _ => true
    shaderInfoLog := fun _ => ""
    programInfoLog := fun _ => ""
    freshTexels := fun _ _ => ⟨some 0, some 0, some 0, some 0⟩ }

/-- A fresh context on the 800 x 600 window of `main`. -/
def GLState.fresh (driver : Driver) : GLState :=
  { currentProgram := 0
    vertexArrayBinding := 0
    viewport := (0, 0, 800, 600)
    textureUnits := fun _ => 0
    imageUnits := fun _ => ⟨0, 0, false, 0, .GL_READ_ONLY, .otherFormat⟩
    shaders := fun _ => none
    programs := fun _ => none
    textures := fun _ => none
    nextObject := 1
    nextTexture := 1
    nextVertexArray := 1
    maxViewportDims := (16384, 16384)
    sampled := none
    driver := driver
    log := [] }

/-- The process at start-up, on a display of 800 x 600 at scale `dpi`. -/
def World.fresh (driver : Driver) (dpi : ℚ) : World :=
  { gl := GLState.fresh driver
    gpu := ⟨⟨0, 0⟩, ⟨0, 0⟩, ⟨0, 0⟩⟩
    sapp_dpi_scale := dpi
    DisplaySize := ⟨800, 600⟩
    stdout := []
    exitStatus := none }

/-- The callback command of a panel with the clip rectangle of the
specification's example, `(10, 20, 522, 532)`. -/
def exampleCmd : ImDrawCmd := ⟨⟨10, 20, 522, 532⟩, some .computeAndDraw, none⟩

/-- The process once `init` has returned or has exited. -/
def afterInit (w : World) : World :=
  match CustomRender.init w with
  | .ok w1 => w1
  | .error w1 => w1

/-- The process while the GUI renderer executes its draw list: `init` has run,
and the renderer has bound its own program 21, vertex array 22 and, on texture
unit 0, its font texture 23. -/
def hostWorld (dpi : ℚ) : World :=
  let w := afterInit (World.fresh Driver.accepting dpi)
  { w with
    gl := { w.gl with
      currentProgram := 21
      vertexArrayBinding := 22
      textureUnits := fun u => if u = 0 then 23 else w.gl.textureUnits u } }

/-- The calls of one run of the render callback, given the arguments `v` of
`glViewport` and the bindings `P` and `V` found at entry. -/
def callbackCalls (gpu : CustomRender) (v : Int × Int × Int × Int) (P V : Nat) : List Event :=
  [.callBegin,
   .glGetIntegerv .GL_CURRENT_PROGRAM,
   .glGetIntegerv .GL_VERTEX_ARRAY_BINDING,
   .glBindVertexArray gpu.render.vao,
   .glViewport v.1 v.2.1 v.2.2.1 v.2.2.2,
   .glBindImageTexture 0 gpu.compute.texture 0 false 0 .GL_WRITE_ONLY .GL_RGBA32F,
   .glUseProgram gpu.compute.program,
   .glDispatchCompute 512 512 1,
   .glMemoryBarrier GL_SHADER_IMAGE_ACCESS_BARRIER_BIT,
   .glUseProgram gpu.render.program,
   .glBindTextureUnit 0 gpu.compute.texture,
   .glDrawArrays GL_TRIANGLES 0 6,
   .callEnd,
   .glBindVertexArray V,
   .glUseProgram P]

/-- What `init` sets up: the compute program and the display program are
linked, and the compute texture has its 512 x 512 `GL_RGBA32F` storage. -/
def Ready (w : World) : Prop :=
  (∃ p, w.gl.programs w.gpu.compute.program = some p ∧ p.linkStatus = true
      ∧ p.computeStage = some .code)
  ∧ (∃ p, w.gl.programs w.gpu.render.program = some p ∧ p.linkStatus = true
      ∧ p.displayStages = true)
  ∧ (∃ t, w.gl.textures w.gpu.compute.texture = some t ∧ t.width = 512 ∧ t.height = 512
      ∧ t.format = .GL_RGBA32F)

/-- The calls that matter to the order of the callback: the entries of `begin`
and `end`, compute dispatches, memory barriers and draws. -/
def Event.isStep : Event → Bool
  | .callBegin => true
  | .callEnd => true
  | .glDispatchCompute _ _ _ => true
  | .glMemoryBarrier _ => true
  | .glDrawArrays _ _ _ => true
  | _ => false

/-- The number of render callbacks in a draw list. -/
def callbackCount (cmds : List ImDrawCmd) : Nat :=
  (cmds.filter fun cmd => cmd.UserCallback.isSome).length

/-- The GUI at the start of a frame, with an empty draw list for the panel. -/
def ImGui.newFrame (visible : Bool) (clip : ImVec4) : ImGui :=
  { visible := visible, ClipRect := clip, NextWindowSize := none, DrawList := [], stack := [] }

/-- The clip-space position of a vertex of the draw, as exact numbers. -/
def clipPosition (gl_VertexID : Nat) : ℚ × ℚ :=
  match vertexMain gl_VertexID with
  | some (p, _) => (p.x.getD 0, p.y.getD 0)
  | none => (0, 0)

/-- Twice the signed area of the triangle `a b c`; positive when the winding
is counter-clockwise. -/
def signedArea2 (a b c : ℚ × ℚ) : ℚ :=
  (b.1 - a.1) * (c.2 - a.2) - (c.1 - a.1) * (b.2 - a.2)

/-- The point lies in the closed counter-clockwise triangle `a b c`. -/
def inTriangle (a b c p : ℚ × ℚ) : Prop :=
  0 ≤ signedArea2 a b p ∧ 0 ≤ signedArea2 b c p ∧ 0 ≤ signedArea2 c a p

/-- The render callback with another barrier argument, everything else as in
`frame.callback`. -/
def callbackWithBarrier (barriers : Nat) (cmd : ImDrawCmd) (w : World) : Option World := do
  let w ← CustomRender.begin cmd w
  let gl := glBindImageTexture 0 w.gpu.compute.texture 0 false 0 .GL_WRITE_ONLY .GL_RGBA32F w.gl
  let gl := glUseProgram w.gpu.compute.program gl
  let gl := glDispatchCompute 512 512 1 gl
  let gl := glMemoryBarrier barriers gl
  let w := frame.render { w with gl := gl }
  some (CustomRender.end w)

end GLComputeDemo

namespace GLComputeDemo

/-! ## Facts about binary32 rounding -/

theorem floorLog2_two_pow (n j : Nat) (hn : n ≠ 0) :
    floorLog2 n (2 ^ j) = (Nat.log2 n : Int) - j := by
  have h1 := Nat.log2_self_le hn
  unfold floorLog2
  simp only [Nat.log2_two_pow]
  have hnot : ¬ (divPow2 n (2 ^ j) ((Nat.log2 n : Int) - j)).1
      < (divPow2 n (2 ^ j) ((Nat.log2 n : Int) - j)).2 := by
    unfold divPow2
    by_cases hle : j ≤ Nat.log2 n
    · have h0 : (0 : Int) ≤ (Nat.log2 n : Int) - j := by omega
      rw [if_pos h0]
      have ht : ((Nat.log2 n : Int) - j).toNat = Nat.log2 n - j := by omega
      simp only [ht, ← Nat.pow_add]
      have : j + (Nat.log2 n - j) = Nat.log2 n := by omega
      rw [this]
      omega
    · have h0 : ¬ (0 : Int) ≤ (Nat.log2 n : Int) - j := by omega
      rw [if_neg h0]
      have ht : (-((Nat.log2 n : Int) - j)).toNat = j - Nat.log2 n := by omega
      simp only [ht]
      have h2 : 2 ^ j = 2 ^ Nat.log2 n * 2 ^ (j - Nat.log2 n) := by
        rw [← Nat.pow_add]
        congr 1
        omega
      rw [h2]
      have := Nat.mul_le_mul_right (2 ^ (j - Nat.log2 n)) h1
      omega
  rw [if_neg hnot]


theorem roundF32_zero : roundF32 0 = some 0 := by
  decide!

/-- A value with a power of two below `2 ^ 150` as denominator and a numerator
below `2 ^ 24` in magnitude is a binary32 value: rounding returns it. -/
theorem roundF32_of_small (q : ℚ) (j : Nat) (hj : j ≤ 149) (hden : q.den = 2 ^ j)
    (hnum : q.num.natAbs < 2 ^ 24) : roundF32 q = some q := by
  by_cases hn : q.num.natAbs = 0
  · have hq : q = 0 := Rat.zero_of_num_zero (Int.natAbs_eq_zero.1 hn)
    rw [hq]
    exact roundF32_zero
  have hL : Nat.log2 q.num.natAbs ≤ 23 := by
    have := (Nat.log2_lt hn).2 hnum
    omega
  have hqe : q = (q.num : ℚ) / (2 : ℚ) ^ j := by
    have := Rat.num_div_den q
    rw [hden] at this
    push_cast at this
    exact this.symm
  unfold roundF32
  simp only [hden, floorLog2_two_pow _ j hn]
  generalize hLdef : Nat.log2 q.num.natAbs = L at hL
  generalize hndef : q.num.natAbs = n at hn hnum
  by_cases he : (0 : Int) ≤ max ((L : Int) - j) (-126) - 23
  · -- the leading bit has exponent 23: an integer below `2 ^ 24`
    have hL23 : L = 23 := by omega
    have hj0 : j = 0 := by omega
    subst hL23 hj0
    have hmax : max (((23 : Nat) : Int) - ((0 : Nat) : Int)) (-126) = 23 := by decide
    simp only [hmax, divPow2]
    norm_num [Nat.mod_one]
    have hq' : q = (q.num : ℚ) := by
      rw [pow_zero, div_one] at hqe
      exact hqe
    refine ⟨by omega, ?_⟩
    by_cases hneg : q < 0
    · rw [if_pos hneg]
      have h1 : q.num < 0 := Rat.num_neg.2 hneg
      have h2 : q.num = -(n : Int) := by omega
      rw [hq', h2]
      push_cast
      rfl
    · rw [if_neg hneg]
      have h1 : ¬ q.num < 0 := fun h => hneg (Rat.num_neg.1 h)
      have h2 : q.num = (n : Int) := by omega
      rw [hq', h2]
      push_cast
      rfl
  · obtain ⟨a, ha⟩ : ∃ a : Nat, (23 : Int) - max ((L : Int) - j) (-126) = a := ⟨_, (Int.toNat_of_nonneg (by omega)).symm⟩
    have haj : j ≤ a := by omega
    have hapos : 0 < a := by omega
    have e1 : (-(max ((L : Int) - j) (-126) - 23)).toNat = a := by omega
    have e2 : ((23 : Int) - max ((L : Int) - j) (-126)).toNat = a := by omega
    have e3 : (0 : Int) ≤ 23 - max ((L : Int) - j) (-126) := by omega
    simp only [divPow2, if_neg he, e1, e2, if_pos e3]
    have hsplit : n * 2 ^ a = n * 2 ^ (a - j) * 2 ^ j := by
      rw [Nat.mul_assoc, ← Nat.pow_add]
      congr 2
      omega
    have hr : n * 2 ^ a / 2 ^ j = n * 2 ^ (a - j) := by
      rw [hsplit]
      exact Nat.mul_div_cancel _ (Nat.pos_pow_of_pos _ (by decide))
    have hrem : n * 2 ^ a % 2 ^ j = 0 := by
      rw [hsplit]
      exact Nat.mul_mod_left _ _
    have hpos : 0 < 2 ^ j := Nat.pos_pow_of_pos _ (by decide)
    simp only [hr, hrem, Nat.mul_zero]
    have c1 : ¬ (2 ^ j < 0 ∨ (0 = 2 ^ j ∧ n * 2 ^ (a - j) % 2 = 1)) := by
      rintro (h | ⟨h, _⟩) <;> omega
    rw [if_neg c1]
    have hlt : ¬ (2 ^ 128 * (1 * 2 ^ a) ≤ n * 2 ^ (a - j)) := by
      have h1 : n * 2 ^ (a - j) ≤ n * 2 ^ a :=
        Nat.mul_le_mul_left _ (Nat.pow_le_pow_right (by decide) (by omega))
      have h2 : n * 2 ^ a < 2 ^ 128 * (1 * 2 ^ a) := by
        rw [Nat.one_mul]
        exact Nat.mul_lt_mul_of_lt_of_le (by omega) (Nat.le_refl _) (Nat.pos_pow_of_pos _ (by decide))
      omega
    rw [if_neg hlt]
    congr 1
    have hcast : ((2 : ℚ) ^ a) = 2 ^ (a - j) * 2 ^ j := by
      rw [← pow_add]
      congr 1
      omega
    have h2j : ((2 : ℚ) ^ j) ≠ 0 := by positivity
    have h2aj : ((2 : ℚ) ^ (a - j)) ≠ 0 := by positivity
    by_cases hneg : q.num < 0
    · rw [if_pos hneg]
      have : q.num = -(n : Int) := by omega
      rw [hqe, this, Rat.mkRat_eq_div]
      push_cast
      rw [hcast]
      field_simp
      ring
    · rw [if_neg hneg]
      have : q.num = (n : Int) := by omega
      rw [hqe, this, Rat.mkRat_eq_div]
      push_cast
      rw [hcast]
      field_simp
      ring

/-- Binary32 operations are exact on `z / 2 ^ k` with `|z| < 2 ^ 24`, `k ≤ 149`. -/
theorem roundF32_dyadic (z : Int) (k : Nat) (hz : z.natAbs < 2 ^ 24) (hk : k ≤ 149) :
    roundF32 ((z : ℚ) / 2 ^ k) = some ((z : ℚ) / 2 ^ k) := by
  have hq : ((z : ℚ) / 2 ^ k) = Rat.divInt z ((2 ^ k : Nat) : Int) := by
    rw [Rat.divInt_eq_div]; push_cast; rfl
  have hne : (((2 ^ k : Nat) : Int)) ≠ 0 := by positivity
  have hd : (Rat.divInt z ((2 ^ k : Nat) : Int)).den ∣ 2 ^ k := by
    have := Rat.den_dvd z ((2 ^ k : Nat) : Int)
    exact Int.natCast_dvd_natCast.mp this
  obtain ⟨j, hj, hden⟩ := (Nat.dvd_prime_pow Nat.prime_two).1 hd
  have hn : (Rat.divInt z ((2 ^ k : Nat) : Int)).num.natAbs < 2 ^ 24 := by
    have hdv := Int.natAbs_dvd_natAbs.2 (Rat.num_dvd z hne)
    by_cases h0 : z.natAbs = 0
    · have : z = 0 := Int.natAbs_eq_zero.1 h0
      subst this
      simp
    · exact lt_of_le_of_lt (Nat.le_of_dvd (Nat.pos_of_ne_zero h0) hdv) hz
  rw [hq]
  exact roundF32_of_small _ j (le_trans hj hk) hden hn

/-- Binary32 operations are exact on integers below `2 ^ 24` in magnitude. -/
theorem roundF32_int (z : Int) (hz : z.natAbs < 2 ^ 24) : roundF32 (z : ℚ) = some (z : ℚ) := by
  have := roundF32_dyadic z 0 hz (by omega)
  simpa using this

theorem truncate_int (z : Int) : truncate (z : ℚ) = z := by
  unfold truncate
  split <;> simp

theorem roundF32_of_eq (q : ℚ) (z : Int) (k : Nat) (hz : z.natAbs < 2 ^ 24) (hk : k ≤ 149)
    (h : q = (z : ℚ) / 2 ^ k) : roundF32 q = some q := by
  rw [h]; exact roundF32_dyadic z k hz hk

theorem truncate_of_floor (q : ℚ) (z : Int) (h0 : 0 ≤ q) (h1 : (z : ℚ) ≤ q) (h2 : q < z + 1) :
    truncate q = z := by
  simp only [truncate, if_pos h0]
  exact Int.floor_eq_iff.2 ⟨h1, h2⟩

theorem F32_div_exact (x : Nat) (hx : x < 512) :
    F32.div (F32.ofInt x) (F32.ofInt ((512 : Nat) : Int)) = some ((x : ℚ) / 512) := by
  have h1 : roundF32 ((x : Int) : ℚ) = some ((x : Int) : ℚ) := roundF32_int x (by omega)
  have h2 : roundF32 (((512 : Nat) : Int) : ℚ) = some (((512 : Nat) : Int) : ℚ) :=
    roundF32_int _ (by decide)
  have h3 := roundF32_dyadic x 9 (by omega) (by omega)
  simp only [F32.div, F32.ofInt, h1, h2, bind, Option.bind]
  norm_num at h3 ⊢
  exact h3

theorem F32_lit_one : F32.lit 1 = some 1 := by
  have := roundF32_int 1 (by decide)
  simpa [F32.lit] using this

theorem F32_lit_two_tenths : F32.lit (2 / 10) = some (13421773 / 67108864) := by
  decide!

/-! ## The viewport of `begin` -/

/-- With exact float operations and results that fit, the arguments of
`glViewport` are the truncations of the specification's rectangle. -/
theorem viewport_of_exact (cmd : ImDrawCmd) (dpi : ℚ) (size : ImVec2)
    (hexact : ExactViewport cmd.ClipRect size.y dpi)
    (hx : FitsGLint (specViewport cmd.ClipRect size.y dpi).1)
    (hy : FitsGLint (specViewport cmd.ClipRect size.y dpi).2.1)
    (hw : FitsGLint (specViewport cmd.ClipRect size.y dpi).2.2.1)
    (hh : FitsGLint (specViewport cmd.ClipRect size.y dpi).2.2.2) :
    CustomRender.begin.viewport cmd dpi size =
      some (truncate (specViewport cmd.ClipRect size.y dpi).1,
            truncate (specViewport cmd.ClipRect size.y dpi).2.1,
            truncate (specViewport cmd.ClipRect size.y dpi).2.2.1,
            truncate (specViewport cmd.ClipRect size.y dpi).2.2.2) := by
  obtain ⟨h1, h2, h3, h4, h5, h6, h7, h8⟩ := hexact
  simp only [specViewport, FitsGLint] at hx hy hw hh ⊢
  simp only [CustomRender.begin.viewport, F32.sub, F32.mul, F32.toGLint, bind, Option.bind,
    h1, h2, h3, h4, h5, h6, h7, h8, if_pos hx, if_pos hy, if_pos hw, if_pos hh]

theorem example_exact : ExactViewport exampleCmd.ClipRect 600 1 :=
  ⟨roundF32_of_eq _ 512 0 (by decide) (by decide) (by norm_num [exampleCmd]),
   roundF32_of_eq _ 10 0 (by decide) (by decide) (by norm_num [exampleCmd]),
   roundF32_of_eq _ 580 0 (by decide) (by decide) (by norm_num [exampleCmd]),
   roundF32_of_eq _ 68 0 (by decide) (by decide) (by norm_num [exampleCmd]),
   roundF32_of_eq _ 68 0 (by decide) (by decide) (by norm_num [exampleCmd]),
   roundF32_of_eq _ 512 0 (by decide) (by decide) (by norm_num [exampleCmd]),
   roundF32_of_eq _ 512 0 (by decide) (by decide) (by norm_num [exampleCmd]),
   roundF32_of_eq _ 512 0 (by decide) (by decide) (by norm_num [exampleCmd])⟩

theorem example_x : truncate (specViewport exampleCmd.ClipRect 600 1).1 = 10 :=
  truncate_of_floor _ 10 (by norm_num [specViewport, exampleCmd])
    (by norm_num [specViewport, exampleCmd]) (by norm_num [specViewport, exampleCmd])

theorem example_y : truncate (specViewport exampleCmd.ClipRect 600 1).2.1 = 68 :=
  truncate_of_floor _ 68 (by norm_num [specViewport, exampleCmd])
    (by norm_num [specViewport, exampleCmd]) (by norm_num [specViewport, exampleCmd])

theorem example_width : truncate (specViewport exampleCmd.ClipRect 600 1).2.2.1 = 512 :=
  truncate_of_floor _ 512 (by norm_num [specViewport, exampleCmd])
    (by norm_num [specViewport, exampleCmd]) (by norm_num [specViewport, exampleCmd])

theorem example_height : truncate (specViewport exampleCmd.ClipRect 600 1).2.2.2 = 512 :=
  truncate_of_floor _ 512 (by norm_num [specViewport, exampleCmd])
    (by norm_num [specViewport, exampleCmd]) (by norm_num [specViewport, exampleCmd])

theorem exampleCmd_viewport :
    CustomRender.begin.viewport exampleCmd 1 ⟨800, 600⟩ = some (10, 68, 512, 512) := by
  have h := viewport_of_exact exampleCmd 1 ⟨800, 600⟩ example_exact
    (by rw [FitsGLint, example_x]; decide) (by rw [FitsGLint, example_y]; decide)
    (by rw [FitsGLint, example_width]; decide) (by rw [FitsGLint, example_height]; decide)
  rw [example_x, example_y, example_width, example_height] at h
  exact h

/-- What `begin` returns when the viewport arguments are defined. -/
theorem begin_eq (cmd : ImDrawCmd) (w : World) (v : Int × Int × Int × Int)
    (h : CustomRender.begin.viewport cmd w.sapp_dpi_scale w.DisplaySize = some v) :
    CustomRender.begin cmd w = some
      { w with
        gl := glViewport v.1 v.2.1 v.2.2.1 v.2.2.2
          (glBindVertexArray w.gpu.render.vao
            (((w.gl.record .callBegin).record (.glGetIntegerv .GL_CURRENT_PROGRAM)).record
              (.glGetIntegerv .GL_VERTEX_ARRAY_BINDING))),
        gpu := { w.gpu with save := ⟨w.gl.currentProgram, w.gl.vertexArrayBinding⟩ } } := by
  obtain ⟨x, y, wd, ht⟩ := v
  simp [CustomRender.begin, h, glGetIntegerv, GLState.record]

/-! ## The outcome of `init` -/

theorem afterInit_fresh_gpu (dpi : ℚ) :
    (afterInit (World.fresh Driver.accepting dpi)).gpu = ⟨⟨3, 1⟩, ⟨1, 5⟩, ⟨0, 0⟩⟩ := by
  rfl

theorem hostWorld_viewport (cmd : ImDrawCmd) (dpi : ℚ) :
    CustomRender.begin.viewport cmd (hostWorld dpi).sapp_dpi_scale (hostWorld dpi).DisplaySize
      = CustomRender.begin.viewport cmd dpi ⟨800, 600⟩ := by
  rfl

theorem hostWorld_ready (dpi : ℚ) : Ready (hostWorld dpi) :=
  ⟨⟨_, rfl, rfl, rfl⟩, ⟨_, rfl, rfl, rfl⟩, ⟨_, rfl, rfl, rfl, rfl⟩⟩

theorem hostWorld_texture (dpi : ℚ) :
    (hostWorld dpi).gl.textures (hostWorld dpi).gpu.compute.texture =
      some ⟨512, 512, .GL_RGBA32F, 0, GL_LINEAR, GL_LINEAR,
        Driver.accepting.freshTexels, Driver.accepting.freshTexels⟩ :=
  rfl

theorem runCommands_gpu (cmds : List GLCommand) (w : World) : (runCommands cmds w).gpu = w.gpu :=
  rfl

/-- C1. For every state with bound program `P` and bound vertex array `V`, and
every sequence of OpenGL commands issued in between (rebinding the program and
the vertex array at will, never touching `CustomRender.save`), `begin`, the
sequence, then `end` leave the bound program `P` and the bound vertex array `V`.
`begin` returns whenever its viewport arguments are defined. -/
theorem begin_end_restores_bindings (cmd : ImDrawCmd) (w : World) (cmds : List GLCommand)
    (v : Int × Int × Int × Int)
    (h : CustomRender.begin.viewport cmd w.sapp_dpi_scale w.DisplaySize = some v) :
    ∃ w1, CustomRender.begin cmd w = some w1
      ∧ (CustomRender.end (runCommands cmds w1)).gl.currentProgram = w.gl.currentProgram
      ∧ (CustomRender.end (runCommands cmds w1)).gl.vertexArrayBinding
          = w.gl.vertexArrayBinding := by
  refine ⟨_, begin_eq cmd w v h, ?_, ?_⟩ <;>
    simp [CustomRender.end, runCommands, glUseProgram, glBindVertexArray]

/-- Witness of C1: the host's program 21 and vertex array 22 survive `begin`, a
sequence that rebinds both, dispatches and draws, and `end`. -/
theorem begin_end_restores_bindings_witness :
    ∃ w1, CustomRender.begin exampleCmd (hostWorld 1) = some w1
      ∧ (CustomRender.end (runCommands
            [.useProgram 5, .bindVertexArray 7, .dispatchCompute 512 512 1, .useProgram 0,
             .drawArrays 4 0 6, .bindVertexArray 0] w1)).gl.currentProgram = 21
      ∧ (CustomRender.end (runCommands
            [.useProgram 5, .bindVertexArray 7, .dispatchCompute 512 512 1, .useProgram 0,
             .drawArrays 4 0 6, .bindVertexArray 0] w1)).gl.vertexArrayBinding = 22 :=
  begin_end_restores_bindings exampleCmd (hostWorld 1) _ (10, 68, 512, 512)
    ((hostWorld_viewport exampleCmd 1).trans exampleCmd_viewport)

theorem mem_grid (n p : Nat × Nat × Nat) :
    p ∈ grid n ↔ p.1 < n.1 ∧ p.2.1 < n.2.1 ∧ p.2.2 < n.2.2 := by
  obtain ⟨x, y, z⟩ := p
  simp only [grid, List.mem_flatMap, List.mem_map, List.mem_range, Prod.mk.injEq]
  constructor
  · rintro ⟨z', hz, y', hy, x', hx, rfl, rfl, rfl⟩
    exact ⟨hx, hy, hz⟩
  · rintro ⟨hx, hy, hz⟩
    exact ⟨z, hz, y, hy, x, hx, rfl, rfl, rfl⟩

theorem mem_invocations (n : Nat × Nat × Nat) (i : Invocation) :
    i ∈ invocations n ↔ i.gl_WorkGroupID ∈ grid n ∧ i.gl_LocalInvocationID = (0, 0, 0) := by
  obtain ⟨g, l⟩ := i
  have hl : grid gl_WorkGroupSize = [(0, 0, 0)] := by decide
  simp only [invocations, hl, List.mem_flatMap, List.map_cons, List.map_nil, List.mem_singleton,
    Invocation.mk.injEq]
  constructor
  · rintro ⟨g', hg, rfl, rfl⟩
    exact ⟨hg, rfl⟩
  · rintro ⟨hg, rfl⟩
    exact ⟨g, hg, rfl, rfl⟩

theorem toInt32_small (n : Nat) (h : n < 2 ^ 31) : toInt32 n = n := by
  have h1 : n % 2 ^ 32 = n := Nat.mod_eq_of_lt (by omega)
  rw [toInt32, h1, if_pos h]

theorem computeMain_width (g : Nat × Nat × Nat) (t : Texture) :
    (computeMain g t).width = t.width ∧ (computeMain g t).height = t.height
      ∧ (computeMain g t).format = t.format ∧ (computeMain g t).fetched = t.fetched := by
  simp only [computeMain, imageStore]
  split <;> simp

/-- The colour the compute shader stores at texel `(x, y)` of a `W x H` image. -/
theorem runCompute_dims (n : Nat × Nat × Nat) (t : Texture) :
    (runCompute n t).width = t.width ∧ (runCompute n t).height = t.height
      ∧ (runCompute n t).format = t.format ∧ (runCompute n t).fetched = t.fetched := by
  unfold runCompute
  generalize invocations n = l
  induction l generalizing t with
  | nil => simp
  | cons a l ih =>
    simp only [List.foldl_cons]
    obtain ⟨h1, h2, h3, h4⟩ := ih (computeMain a.gl_GlobalInvocationID t)
    obtain ⟨k1, k2, k3, k4⟩ := computeMain_width a.gl_GlobalInvocationID t
    exact ⟨h1.trans k1, h2.trans k2, h3.trans k3, h4.trans k4⟩

theorem computeMain_texel (g : Nat × Nat × Nat) (t : Texture) (x y : Nat) :
    (computeMain g t).texels x y =
      if toInt32 g.1 = x ∧ toInt32 g.2.1 = y ∧ x < t.width ∧ y < t.height then
        ⟨F32.div (F32.ofInt x) (F32.ofInt t.width), F32.div (F32.ofInt y) (F32.ofInt t.height),
          F32.lit (2 / 10), F32.lit 1⟩
      else t.texels x y := by
  simp only [computeMain, imageStore, imageSize]
  by_cases hb : 0 ≤ toInt32 g.1 ∧ toInt32 g.1 < (t.width : Int) ∧ 0 ≤ toInt32 g.2.1
      ∧ toInt32 g.2.1 < (t.height : Int)
  · rw [if_pos hb]
    simp only
    by_cases hx : toInt32 g.1 = x ∧ toInt32 g.2.1 = y
    · obtain ⟨hx1, hx2⟩ := hx
      have c1 : x = (toInt32 g.1).toNat ∧ y = (toInt32 g.2.1).toNat := by omega
      have c2 : toInt32 g.1 = x ∧ toInt32 g.2.1 = y ∧ x < t.width ∧ y < t.height := by omega
      rw [if_pos c1, if_pos c2, hx1, hx2]
    · have c1 : ¬ (x = (toInt32 g.1).toNat ∧ y = (toInt32 g.2.1).toNat) := by omega
      have c2 : ¬ (toInt32 g.1 = x ∧ toInt32 g.2.1 = y ∧ x < t.width ∧ y < t.height) := by omega
      rw [if_neg c1, if_neg c2]
  · rw [if_neg hb]
    have c2 : ¬ (toInt32 g.1 = x ∧ toInt32 g.2.1 = y ∧ x < t.width ∧ y < t.height) := by omega
    rw [if_neg c2]

theorem foldl_computeMain_texel (l : List Invocation) (t : Texture) (x y : Nat)
    (hx : x < t.width) (hy : y < t.height)
    (h : (∃ i ∈ l, i.texel = ((x : Int), (y : Int))) ∨ t.texels x y =
        ⟨F32.div (F32.ofInt x) (F32.ofInt t.width), F32.div (F32.ofInt y) (F32.ofInt t.height),
          F32.lit (2 / 10), F32.lit 1⟩) :
    (l.foldl (fun t i => computeMain i.gl_GlobalInvocationID t) t).texels x y =
      ⟨F32.div (F32.ofInt x) (F32.ofInt t.width), F32.div (F32.ofInt y) (F32.ofInt t.height),
        F32.lit (2 / 10), F32.lit 1⟩ := by
  induction l generalizing t with
  | nil =>
    rcases h with ⟨i, hi, _⟩ | h
    · cases hi
    · exact h
  | cons a l ih =>
    simp only [List.foldl_cons]
    obtain ⟨k1, k2, _, _⟩ := computeMain_width a.gl_GlobalInvocationID t
    have key := ih (computeMain a.gl_GlobalInvocationID t) (by omega) (by omega)
    rw [k1, k2] at key
    apply key
    by_cases ha : a.texel = ((x : Int), (y : Int))
    · right
      rw [computeMain_texel, if_pos]
      simp only [Invocation.texel, Prod.mk.injEq] at ha
      exact ⟨ha.1, ha.2, hx, hy⟩
    · rcases h with ⟨i, hi, hit⟩ | h
      · rcases List.mem_cons.1 hi with rfl | hi
        · exact absurd hit ha
        · exact Or.inl ⟨i, hi, hit⟩
      · right
        rw [computeMain_texel]
        split
        · rfl
        · exact h

theorem runCompute_texel (n : Nat × Nat × Nat) (t : Texture) (x y : Nat)
    (hx : x < t.width) (hy : y < t.height)
    (h : ∃ i ∈ invocations n, i.texel = ((x : Int), (y : Int))) :
    (runCompute n t).texels x y =
      ⟨F32.div (F32.ofInt x) (F32.ofInt t.width), F32.div (F32.ofInt y) (F32.ofInt t.height),
        F32.lit (2 / 10), F32.lit 1⟩ := by
  unfold runCompute
  exact foldl_computeMain_texel (invocations n) t x y hx hy (Or.inl h)

/-- The order in which the invocations run does not matter: in any order, and
however often each runs, a texel that some invocation stores to ends up with
the value `runCompute` gives it. -/
theorem compute_any_order (n : Nat × Nat × Nat) (l : List Invocation) (t : Texture) (x y : Nat)
    (hx : x < t.width) (hy : y < t.height)
    (hl : ∃ i ∈ l, i.texel = ((x : Int), (y : Int)))
    (hn : ∃ i ∈ invocations n, i.texel = ((x : Int), (y : Int))) :
    (l.foldl (fun t i => computeMain i.gl_GlobalInvocationID t) t).texels x y
      = (runCompute n t).texels x y := by
  rw [runCompute_texel n t x y hx hy hn]
  exact foldl_computeMain_texel l t x y hx hy (Or.inl hl)

/-- The texels after the part `COMPUTE` of the callback. -/
theorem frame_compute_texel (w : World) (hw : Ready w) (x y : Nat) (hx : x < 512)
    (hy : y < 512) :
    ∃ t, (frame.compute w).gl.textures w.gpu.compute.texture = some t
      ∧ t.texels x y = ⟨some ((x : ℚ) / 512), some ((y : ℚ) / 512), F32.lit (2 / 10), some 1⟩ := by
  obtain ⟨⟨p, hp, hl, hc⟩, _, ⟨t, ht, htw, hth, htf⟩⟩ := hw
  refine ⟨runCompute (512, 512, 1) t, ?_, ?_⟩
  · have hb : (32 : Nat) &&& 8 = 0 := by decide
    simp [frame.compute, glMemoryBarrier, glDispatchCompute, glUseProgram, glBindImageTexture,
      hp, ht, hl, hc, htf, GL_SHADER_IMAGE_ACCESS_BARRIER_BIT, GL_TEXTURE_FETCH_BARRIER_BIT, hb]
  · have hmem : ∃ i ∈ invocations (512, 512, 1), i.texel = ((x : Int), (y : Int)) := by
      refine ⟨⟨(x, y, 0), (0, 0, 0)⟩, ?_, ?_⟩
      · rw [mem_invocations, mem_grid]
        exact ⟨⟨hx, hy, Nat.zero_lt_one⟩, rfl⟩
      · simp only [Invocation.texel, Invocation.gl_GlobalInvocationID, gl_WorkGroupSize,
          Nat.mul_one, Nat.add_zero]
        rw [toInt32_small x (by omega), toInt32_small y (by omega)]
    rw [runCompute_texel (512, 512, 1) t x y (by omega) (by omega) hmem]
    have hval : (⟨F32.div (F32.ofInt x) (F32.ofInt t.width),
        F32.div (F32.ofInt y) (F32.ofInt t.height), F32.lit (2 / 10), F32.lit 1⟩ : Vec4)
        = ⟨some ((x : ℚ) / 512), some ((y : ℚ) / 512), F32.lit (2 / 10), some 1⟩ := by
      rw [htw, hth, F32_div_exact x hx, F32_div_exact y hy, F32_lit_one]
    exact hval

/-- C3. After one compute dispatch as the render callback issues it (512 x 512 x 1
work groups of local size 1 x 1 on the 512 x 512 image of `init`), every texel
`(x, y)` with `x < 512` and `y < 512` holds `(x / 512, y / 512, 0.2, 1.0)`, the
float constant `0.2` being the binary32 value of that literal, whatever the
image held before. -/
theorem compute_stores_gradient (w : World) (hw : Ready w) (x y : Nat) (hx : x < 512)
    (hy : y < 512) :
    ∃ t, (frame.compute w).gl.textures w.gpu.compute.texture = some t
      ∧ t.texels x y = ⟨some ((x : ℚ) / 512), some ((y : ℚ) / 512), F32.lit (2 / 10), some 1⟩ :=
  frame_compute_texel w hw x y hx hy

/-- Witness of C3: after the dispatch in the GUI renderer's state, texel `(3, 5)` of
the compute texture holds `(3 / 512, 5 / 512, 0.2, 1.0)`. -/
theorem compute_stores_gradient_witness :
    ∃ t, (frame.compute (hostWorld 1)).gl.textures 1 = some t
      ∧ t.texels 3 5 = ⟨some ((3 : ℚ) / 512), some ((5 : ℚ) / 512), F32.lit (2 / 10), some 1⟩ := by
  simpa using compute_stores_gradient (hostWorld 1) (hostWorld_ready 1) 3 5 (by decide) (by decide)

/-- The state after the callback, when the viewport arguments are defined. -/
theorem callback_eq (cmd : ImDrawCmd) (w : World) (v : Int × Int × Int × Int)
    (h : CustomRender.begin.viewport cmd w.sapp_dpi_scale w.DisplaySize = some v) :
    frame.callback cmd w = some (CustomRender.end (frame.render (frame.compute
      { w with
        gl := glViewport v.1 v.2.1 v.2.2.1 v.2.2.2
          (glBindVertexArray w.gpu.render.vao
            (((w.gl.record .callBegin).record (.glGetIntegerv .GL_CURRENT_PROGRAM)).record
              (.glGetIntegerv .GL_VERTEX_ARRAY_BINDING))),
        gpu := { w.gpu with save := ⟨w.gl.currentProgram, w.gl.vertexArrayBinding⟩ } }))) := by
  simp [frame.callback, begin_eq cmd w v h]

/-- C4, as stated, fails. When the GUI renderer runs the callback with its
viewport `(0, 0, 800, 600)`, its font texture 23 on texture unit 0 and nothing
on image unit 0, the callback leaves the viewport `(10, 68, 512, 512)` and the
compute texture 1 on texture unit 0 and on image unit 0. -/
theorem callback_changes_host_state :
    ∃ w1, frame.callback exampleCmd (hostWorld 1) = some w1
      ∧ (hostWorld 1).gl.viewport = (0, 0, 800, 600) ∧ w1.gl.viewport = (10, 68, 512, 512)
      ∧ (hostWorld 1).gl.textureUnits 0 = 23 ∧ w1.gl.textureUnits 0 = 1
      ∧ ((hostWorld 1).gl.imageUnits 0).texture = 0 ∧ (w1.gl.imageUnits 0).texture = 1 :=
  ⟨_, callback_eq exampleCmd (hostWorld 1) (10, 68, 512, 512)
      ((hostWorld_viewport exampleCmd 1).trans exampleCmd_viewport),
    rfl, rfl, rfl, rfl, rfl, rfl⟩

/-- C4, amended. After the render callback the bound program and the bound
vertex array are what they were before it; texture unit 0 and image unit 0 are
left bound to the compute texture, and the viewport is left as `begin` set it
(unchanged only when `glViewport` rejected a negative width or height). -/
theorem callback_restores_program_and_vao (cmd : ImDrawCmd) (w : World)
    (v : Int × Int × Int × Int)
    (h : CustomRender.begin.viewport cmd w.sapp_dpi_scale w.DisplaySize = some v) :
    ∃ w1, frame.callback cmd w = some w1
      ∧ w1.gl.currentProgram = w.gl.currentProgram
      ∧ w1.gl.vertexArrayBinding = w.gl.vertexArrayBinding
      ∧ w1.gl.textureUnits 0 = w.gpu.compute.texture
      ∧ w1.gl.imageUnits 0 = ⟨w.gpu.compute.texture, 0, false, 0, .GL_WRITE_ONLY, .GL_RGBA32F⟩
      ∧ w1.gl.viewport =
          if v.2.2.1 < 0 ∨ v.2.2.2 < 0 then w.gl.viewport
          else (v.1, v.2.1, min v.2.2.1 w.gl.maxViewportDims.1,
                min v.2.2.2 w.gl.maxViewportDims.2) := by
  refine ⟨_, callback_eq cmd w v h, ?_, ?_, ?_, ?_, ?_⟩ <;>
    simp [CustomRender.end, frame.render, frame.compute, glUseProgram, glBindVertexArray,
      glDrawArrays, glBindTextureUnit, glMemoryBarrier, glDispatchCompute, glBindImageTexture,
      glViewport, GLState.record]

/-- Witness of C4 amended: in the GUI renderer's state the callback leaves the
program 21 and the vertex array 22 bound. -/
theorem callback_restores_program_and_vao_witness :
    ∃ w1, frame.callback exampleCmd (hostWorld 1) = some w1
      ∧ w1.gl.currentProgram = 21
      ∧ w1.gl.vertexArrayBinding = 22
      ∧ w1.gl.textureUnits 0 = 1
      ∧ w1.gl.imageUnits 0 = ⟨1, 0, false, 0, .GL_WRITE_ONLY, .GL_RGBA32F⟩
      ∧ w1.gl.viewport = (10, 68, 512, 512) :=
  callback_restores_program_and_vao exampleCmd (hostWorld 1) (10, 68, 512, 512)
    ((hostWorld_viewport exampleCmd 1).trans exampleCmd_viewport)

/-- C7. Every invocation of the render callback makes its calls in this order:
`begin` (two queries, the vertex array, the viewport), the image binding, the
compute program, the dispatch, the memory barrier, the display program, the
texture binding, the draw, `end` (vertex array and program restored). Among
them the entry of `begin`, the dispatch, the barrier, the draw and the entry of
`end` occur once each and in that order: `begin` and `end` are called once, no
dispatch or draw precedes `begin` or follows `end`, and the barrier lies
between the dispatch and the draw. -/
theorem callback_call_order (cmd : ImDrawCmd) (w : World) (v : Int × Int × Int × Int)
    (h : CustomRender.begin.viewport cmd w.sapp_dpi_scale w.DisplaySize = some v) :
    ∃ w1 new, frame.callback cmd w = some w1
      ∧ w1.gl.log = w.gl.log ++ new
      ∧ new = callbackCalls w.gpu v w.gl.currentProgram w.gl.vertexArrayBinding
      ∧ new.filter Event.isStep =
          [.callBegin, .glDispatchCompute 512 512 1,
           .glMemoryBarrier GL_SHADER_IMAGE_ACCESS_BARRIER_BIT,
           .glDrawArrays GL_TRIANGLES 0 6, .callEnd] := by
  refine ⟨_, _, callback_eq cmd w v h, ?_, rfl, ?_⟩
  · simp [CustomRender.end, frame.render, frame.compute, glUseProgram, glBindVertexArray,
      glDrawArrays, glBindTextureUnit, glMemoryBarrier, glDispatchCompute, glBindImageTexture,
      glViewport, GLState.record, callbackCalls]
  · simp [callbackCalls, Event.isStep]

/-- Witness of C7: the calls of the callback on the example command in the GUI
renderer's state. -/
theorem callback_call_order_witness :
    ∃ w1 new, frame.callback exampleCmd (hostWorld 1) = some w1
      ∧ w1.gl.log = (hostWorld 1).gl.log ++ new
      ∧ new = callbackCalls ⟨⟨3, 1⟩, ⟨1, 5⟩, ⟨0, 0⟩⟩ (10, 68, 512, 512) 21 22
      ∧ new.filter Event.isStep =
          [.callBegin, .glDispatchCompute 512 512 1,
           .glMemoryBarrier GL_SHADER_IMAGE_ACCESS_BARRIER_BIT,
           .glDrawArrays GL_TRIANGLES 0 6, .callEnd] :=
  callback_call_order exampleCmd (hostWorld 1) (10, 68, 512, 512)
    ((hostWorld_viewport exampleCmd 1).trans exampleCmd_viewport)

/-! ## The memory barrier -/

/-- What the draw of the callback samples: the contents texture fetches
observed before the dispatch, while the texture holds what the dispatch wrote. -/
theorem callback_sampled (cmd : ImDrawCmd) (w : World) (v : Int × Int × Int × Int)
    (h : CustomRender.begin.viewport cmd w.sapp_dpi_scale w.DisplaySize = some v)
    (hw : Ready w) (t0 : Texture) (ht : w.gl.textures w.gpu.compute.texture = some t0) :
    ∃ w1, frame.callback cmd w = some w1
      ∧ w1.gl.sampled = some t0.fetched
      ∧ w1.gl.textures w.gpu.compute.texture = some (runCompute (512, 512, 1) t0) := by
  obtain ⟨⟨p, hp, hl, hc⟩, ⟨p2, hp2, hl2, hd2⟩, ⟨t, ht', htw, hth, htf⟩⟩ := hw
  rw [ht] at ht'
  cases ht'
  have hb : (32 : Nat) &&& 8 = 0 := by decide
  refine ⟨_, callback_eq cmd w v h, ?_, ?_⟩ <;>
    simp [CustomRender.end, frame.render, frame.compute, glUseProgram, glBindVertexArray,
      glDrawArrays, glBindTextureUnit, glMemoryBarrier, glDispatchCompute, glBindImageTexture,
      glViewport, GLState.record, hp, hl, hc, hp2, hl2, hd2, ht, htf,
      GL_SHADER_IMAGE_ACCESS_BARRIER_BIT, GL_TEXTURE_FETCH_BARRIER_BIT, hb,
      (runCompute_dims (512, 512, 1) t0).2.2.2]

/-- The callback keeps what `init` set up: it can run frame after frame. -/
theorem callback_preserves_ready (cmd : ImDrawCmd) (w : World) (v : Int × Int × Int × Int)
    (h : CustomRender.begin.viewport cmd w.sapp_dpi_scale w.DisplaySize = some v)
    (hw : Ready w) : ∃ w1, frame.callback cmd w = some w1 ∧ Ready w1 := by
  obtain ⟨⟨p, hp, hl, hc⟩, ⟨p2, hp2, hl2, hd2⟩, ⟨t, ht, htw, hth, htf⟩⟩ := hw
  have hb : (32 : Nat) &&& 8 = 0 := by decide
  obtain ⟨d1, d2, d3, _⟩ := runCompute_dims (512, 512, 1) t
  refine ⟨_, callback_eq cmd w v h, ⟨p, ?_, hl, hc⟩, ⟨p2, ?_, hl2, hd2⟩,
    ⟨runCompute (512, 512, 1) t, ?_, d1.trans htw, d2.trans hth, d3.trans htf⟩⟩ <;>
    simp [CustomRender.end, frame.render, frame.compute, glUseProgram, glBindVertexArray,
      glDrawArrays, glBindTextureUnit, glMemoryBarrier, glDispatchCompute, glBindImageTexture,
      glViewport, GLState.record, hp, hl, hc, hp2, hl2, hd2, ht, htf,
      GL_SHADER_IMAGE_ACCESS_BARRIER_BIT, GL_TEXTURE_FETCH_BARRIER_BIT, hb]

/-- The dispatch of the callback, issued in any state with the programs and
textures of a ready process. -/
theorem dispatch_state (w : World) (s0 : GLState) (hw : Ready w) (t0 : Texture)
    (ht : w.gl.textures w.gpu.compute.texture = some t0)
    (hp : s0.programs = w.gl.programs) (hx : s0.textures = w.gl.textures) :
    (glDispatchCompute 512 512 1 (glUseProgram w.gpu.compute.program
      (glBindImageTexture 0 w.gpu.compute.texture 0 false 0 .GL_WRITE_ONLY .GL_RGBA32F
        s0))).textures w.gpu.compute.texture = some (runCompute (512, 512, 1) t0)
    ∧ (glDispatchCompute 512 512 1 (glUseProgram w.gpu.compute.program
      (glBindImageTexture 0 w.gpu.compute.texture 0 false 0 .GL_WRITE_ONLY .GL_RGBA32F
        s0))).programs = w.gl.programs := by
  obtain ⟨⟨p, hp1, hl, hc⟩, _, ⟨t, ht', _, _, htf⟩⟩ := hw
  rw [ht] at ht'
  cases ht'
  constructor <;>
    simp [glDispatchCompute, glUseProgram, glBindImageTexture, hp, hx, hp1, ht, hl, hc, htf]

/-- A draw after a barrier with `GL_TEXTURE_FETCH_BARRIER_BIT` samples the
texels as written. -/
theorem render_after_fetch_barrier (w : World) (s : GLState) (r : Texture) (p2 : Program)
    (hr : s.textures w.gpu.compute.texture = some r)
    (hp2 : s.programs w.gpu.render.program = some p2) (hl2 : p2.linkStatus = true)
    (hd2 : p2.displayStages = true) :
    (CustomRender.end (frame.render
      { w with gl := glMemoryBarrier GL_TEXTURE_FETCH_BARRIER_BIT s })).gl.sampled
      = some r.texels := by
  have hb : (8 : Nat) &&& 8 = 8 := by decide
  simp [CustomRender.end, frame.render, glUseProgram, glBindVertexArray, glDrawArrays,
    glBindTextureUnit, glMemoryBarrier, GLState.record, hr, hp2, hl2, hd2,
    GL_TEXTURE_FETCH_BARRIER_BIT, hb]

theorem callbackWithBarrier_eq (barriers : Nat) (cmd : ImDrawCmd) (w : World)
    (v : Int × Int × Int × Int)
    (h : CustomRender.begin.viewport cmd w.sapp_dpi_scale w.DisplaySize = some v) :
    callbackWithBarrier barriers cmd w = some (CustomRender.end (frame.render
      { w with
        gl := glMemoryBarrier barriers (glDispatchCompute 512 512 1
          (glUseProgram w.gpu.compute.program
            (glBindImageTexture 0 w.gpu.compute.texture 0 false 0 .GL_WRITE_ONLY .GL_RGBA32F
              (glViewport v.1 v.2.1 v.2.2.1 v.2.2.2
                (glBindVertexArray w.gpu.render.vao
                  (((w.gl.record .callBegin).record (.glGetIntegerv .GL_CURRENT_PROGRAM)).record
                    (.glGetIntegerv .GL_VERTEX_ARRAY_BINDING))))))),
        gpu := { w.gpu with save := ⟨w.gl.currentProgram, w.gl.vertexArrayBinding⟩ } })) := by
  simp [callbackWithBarrier, begin_eq cmd w v h]

/-- With `GL_TEXTURE_FETCH_BARRIER_BIT` in place of the callback's barrier
argument, the draw samples what the dispatch wrote. -/
theorem callbackWithBarrier_sampled (cmd : ImDrawCmd) (w : World) (v : Int × Int × Int × Int)
    (h : CustomRender.begin.viewport cmd w.sapp_dpi_scale w.DisplaySize = some v)
    (hw : Ready w) (t0 : Texture) (ht : w.gl.textures w.gpu.compute.texture = some t0) :
    ∃ w1, callbackWithBarrier GL_TEXTURE_FETCH_BARRIER_BIT cmd w = some w1
      ∧ w1.gl.sampled = some (runCompute (512, 512, 1) t0).texels := by
  obtain ⟨hd1, hd2⟩ := dispatch_state w
    (glViewport v.1 v.2.1 v.2.2.1 v.2.2.2
      (glBindVertexArray w.gpu.render.vao
        (((w.gl.record .callBegin).record (.glGetIntegerv .GL_CURRENT_PROGRAM)).record
          (.glGetIntegerv .GL_VERTEX_ARRAY_BINDING)))) hw t0 ht rfl rfl
  obtain ⟨_, ⟨p2, hp2, hl2, hdd⟩, _⟩ := hw
  refine ⟨_, callbackWithBarrier_eq _ cmd w v h, ?_⟩
  exact render_after_fetch_barrier
    { w with gpu := { w.gpu with save := ⟨w.gl.currentProgram, w.gl.vertexArrayBinding⟩ } }
    _ _ p2 hd1 (hd2 ▸ hp2) hl2 hdd

/-- C8, on the code. In the first frame after `init`, with storage that the
driver cleared, the callback's dispatch stores `(1 / 512, 0, 0.2, 1)` at texel
`(1, 0)`, and the draw after `glMemoryBarrier(GL_SHADER_IMAGE_ACCESS_BARRIER_BIT)`
still samples the cleared texel `(0, 0, 0, 0)` there: that barrier bit does not
order the image stores before texture fetches. -/
theorem draw_samples_texels_from_before_dispatch :
    ∃ w1 t smp, frame.callback exampleCmd (hostWorld 1) = some w1
      ∧ w1.gl.textures 1 = some t ∧ w1.gl.sampled = some smp
      ∧ t.texels 1 0 = ⟨some (1 / 512), some (0 / 512), F32.lit (2 / 10), some 1⟩
      ∧ smp 1 0 = ⟨some 0, some 0, some 0, some 0⟩ := by
  obtain ⟨w1, h1, h2, h3⟩ := callback_sampled exampleCmd (hostWorld 1) (10, 68, 512, 512)
    ((hostWorld_viewport exampleCmd 1).trans exampleCmd_viewport) (hostWorld_ready 1) _
    (hostWorld_texture 1)
  refine ⟨w1, _, _, h1, h3, h2, ?_, rfl⟩
  have hmem : ∃ i ∈ invocations (512, 512, 1), i.texel = (((1 : Nat) : Int), ((0 : Nat) : Int)) := by
    refine ⟨⟨(1, 0, 0), (0, 0, 0)⟩, ?_, ?_⟩
    · rw [mem_invocations, mem_grid]
      exact ⟨⟨by decide, by decide, Nat.zero_lt_one⟩, rfl⟩
    · simp only [Invocation.texel, Invocation.gl_GlobalInvocationID, gl_WorkGroupSize,
        Nat.mul_one, Nat.add_zero]
      rw [toInt32_small 1 (by decide), toInt32_small 0 (by decide)]
  rw [runCompute_texel (512, 512, 1) _ 1 0 (by decide) (by decide) hmem]
  have e1 := F32_div_exact 1 (by decide)
  have e0 := F32_div_exact 0 (by decide)
  simp only [Nat.cast_one, Nat.cast_zero] at e1 e0
  simp only [Nat.cast_one, Nat.cast_zero, e1, e0, F32_lit_one]

/-! ## The vertex shader -/

/-- The six vertices the vertex shader emits. -/
theorem vertexMain_values :
    vertexMain 0 = some (⟨some (-1), some (-1), some 0, some 1⟩, ⟨some 0, some 0⟩)
    ∧ vertexMain 1 = some (⟨some 1, some (-1), some 0, some 1⟩, ⟨some 1, some 0⟩)
    ∧ vertexMain 2 = some (⟨some 1, some 1, some 0, some 1⟩, ⟨some 1, some 1⟩)
    ∧ vertexMain 3 = some (⟨some (-1), some (-1), some 0, some 1⟩, ⟨some 0, some 0⟩)
    ∧ vertexMain 4 = some (⟨some 1, some 1, some 0, some 1⟩, ⟨some 1, some 1⟩)
    ∧ vertexMain 5 = some (⟨some (-1), some 1, some 0, some 1⟩, ⟨some 0, some 1⟩) := by
  have r0 : roundF32 0 = some 0 := roundF32_of_eq _ 0 0 (by decide) (by decide) (by norm_num)
  have r1 : roundF32 1 = some 1 := roundF32_of_eq _ 1 0 (by decide) (by decide) (by norm_num)
  have rm1 : roundF32 (-1) = some (-1) :=
    roundF32_of_eq _ (-1) 0 (by decide) (by decide) (by norm_num)
  have rh : roundF32 (5 / 10) = some (5 / 10) :=
    roundF32_of_eq _ 1 1 (by decide) (by decide) (by norm_num)
  have rp : roundF32 (1 * (5 / 10)) = some (1 * (5 / 10)) :=
    roundF32_of_eq _ 1 1 (by decide) (by decide) (by norm_num)
  have rn : roundF32 (-1 * (5 / 10)) = some (-1 * (5 / 10)) :=
    roundF32_of_eq _ (-1) 1 (by decide) (by decide) (by norm_num)
  have s1 : roundF32 (1 * (5 / 10) + 5 / 10) = some 1 := by
    have : (1 * (5 / 10) + 5 / 10 : ℚ) = 1 := by norm_num
    rw [this, r1]
  have s0 : roundF32 (-1 * (5 / 10) + 5 / 10) = some 0 := by
    have : (-1 * (5 / 10) + 5 / 10 : ℚ) = 0 := by norm_num
    rw [this, r0]
  simp only [vertexMain, index, pos, F32.lit, F32.add,
    F32.mul, bind, Option.bind, List.getElem?_cons_zero, List.getElem?_cons_succ,
    r0, r1, rm1, rh, rp, rn, s0, s1, and_self]

theorem clipPosition_values :
    clipPosition 0 = (-1, -1) ∧ clipPosition 1 = (1, -1) ∧ clipPosition 2 = (1, 1)
    ∧ clipPosition 3 = (-1, -1) ∧ clipPosition 4 = (1, 1) ∧ clipPosition 5 = (-1, 1) := by
  obtain ⟨h0, h1, h2, h3, h4, h5⟩ := vertexMain_values
  simp only [clipPosition, h0, h1, h2, h3, h4, h5, Option.getD_some, and_self]

/-- C9. For the vertex indices 0 to 5 of the draw the vertex shader emits the
positions `pos[index[i]]` with `index = (0, 1, 2, 0, 2, 3)` over the corners
`(-1, -1)`, `(1, -1)`, `(1, 1)`, `(-1, 1)`, and `uv = position * 0.5 + 0.5`: each
component of `uv` is 0 or 1, hence in `[0, 1]`. The triangles of the vertices
0 to 2 and 3 to 5 both wind counter-clockwise, their areas add up to 4, they
cover exactly the square `[-1, 1] x [-1, 1]`, and they share only its
diagonal. -/
theorem fullscreen_quad_geometry :
    (List.range 6).map vertexMain =
      [some (⟨some (-1), some (-1), some 0, some 1⟩, ⟨some 0, some 0⟩),
       some (⟨some 1, some (-1), some 0, some 1⟩, ⟨some 1, some 0⟩),
       some (⟨some 1, some 1, some 0, some 1⟩, ⟨some 1, some 1⟩),
       some (⟨some (-1), some (-1), some 0, some 1⟩, ⟨some 0, some 0⟩),
       some (⟨some 1, some 1, some 0, some 1⟩, ⟨some 1, some 1⟩),
       some (⟨some (-1), some 1, some 0, some 1⟩, ⟨some 0, some 1⟩)]
    ∧ (∀ i, i < 6 → ∃ x y u v : ℚ,
        vertexMain i = some (⟨some x, some y, some 0, some 1⟩, ⟨some u, some v⟩)
        ∧ (x = -1 ∨ x = 1) ∧ (y = -1 ∨ y = 1)
        ∧ u = x * (5 / 10) + 5 / 10 ∧ v = y * (5 / 10) + 5 / 10
        ∧ (u = 0 ∨ u = 1) ∧ (v = 0 ∨ v = 1)
        ∧ 0 ≤ u ∧ u ≤ 1 ∧ 0 ≤ v ∧ v ≤ 1)
    ∧ 0 < signedArea2 (clipPosition 0) (clipPosition 1) (clipPosition 2)
    ∧ 0 < signedArea2 (clipPosition 3) (clipPosition 4) (clipPosition 5)
    ∧ signedArea2 (clipPosition 0) (clipPosition 1) (clipPosition 2) / 2
        + signedArea2 (clipPosition 3) (clipPosition 4) (clipPosition 5) / 2 = 4
    ∧ (∀ p : ℚ × ℚ,
        (inTriangle (clipPosition 0) (clipPosition 1) (clipPosition 2) p
          ∨ inTriangle (clipPosition 3) (clipPosition 4) (clipPosition 5) p)
        ↔ (-1 ≤ p.1 ∧ p.1 ≤ 1 ∧ -1 ≤ p.2 ∧ p.2 ≤ 1))
    ∧ (∀ p : ℚ × ℚ,
        (inTriangle (clipPosition 0) (clipPosition 1) (clipPosition 2) p
          ∧ inTriangle (clipPosition 3) (clipPosition 4) (clipPosition 5) p)
        ↔ (p.1 = p.2 ∧ -1 ≤ p.1 ∧ p.1 ≤ 1)) := by
  obtain ⟨h0, h1, h2, h3, h4, h5⟩ := vertexMain_values
  obtain ⟨c0, c1, c2, c3, c4, c5⟩ := clipPosition_values
  refine ⟨?_, ?_, ?_, ?_, ?_, ?_, ?_⟩
  · simp only [List.range, List.range.loop, List.map, h0, h1, h2, h3, h4, h5]
  · intro i hi
    interval_cases i
    · exact ⟨-1, -1, 0, 0, h0, by norm_num⟩
    · exact ⟨1, -1, 1, 0, h1, by norm_num⟩
    · exact ⟨1, 1, 1, 1, h2, by norm_num⟩
    · exact ⟨-1, -1, 0, 0, h3, by norm_num⟩
    · exact ⟨1, 1, 1, 1, h4, by norm_num⟩
    · exact ⟨-1, 1, 0, 1, h5, by norm_num⟩
  · rw [c0, c1, c2]; norm_num [signedArea2]
  · rw [c3, c4, c5]; norm_num [signedArea2]
  · rw [c0, c1, c2, c3, c4, c5]; norm_num [signedArea2]
  · intro p
    rw [c0, c1, c2, c3, c4, c5]
    simp only [inTriangle, signedArea2]
    constructor
    · rintro (⟨a, b, c⟩ | ⟨a, b, c⟩) <;> refine ⟨?_, ?_, ?_, ?_⟩ <;> linarith
    · rintro ⟨a, b, c, d⟩
      by_cases hle : p.2 ≤ p.1
      · left
        refine ⟨?_, ?_, ?_⟩ <;> linarith
      · right
        refine ⟨?_, ?_, ?_⟩ <;> linarith
  · intro p
    rw [c0, c1, c2, c3, c4, c5]
    simp only [inTriangle, signedArea2]
    constructor
    · rintro ⟨⟨a, b, c⟩, ⟨d, e, f⟩⟩
      refine ⟨?_, ?_, ?_⟩ <;> linarith
    · rintro ⟨a, b, c⟩
      refine ⟨⟨?_, ?_, ?_⟩, ⟨?_, ?_, ?_⟩⟩ <;> linarith

/-! ## The frame -/

/-- C6. In a frame in which the panel is not visible (`ImGui::Begin` returns
false) `frame` attaches no callback: the draw list is left as it was, so
executing it issues no call of this component, no dispatch and no draw. In a
frame in which the panel is visible exactly one callback is attached, with the
panel's clip rectangle and no payload. -/
theorem frame_attaches_callback_iff_visible (ui : ImGui) (w : World) :
    (ui.visible = false →
      (frame ui).DrawList = ui.DrawList
      ∧ callbackCount (frame ui).DrawList = callbackCount ui.DrawList
      ∧ renderDrawList (frame ui).DrawList w = renderDrawList ui.DrawList w
      ∧ (ui.DrawList = [] → renderDrawList (frame ui).DrawList w = some w))
    ∧ (ui.visible = true →
      (frame ui).DrawList = ui.DrawList ++ [⟨ui.ClipRect, some .computeAndDraw, none⟩]
      ∧ callbackCount (frame ui).DrawList = callbackCount ui.DrawList + 1) := by
  constructor
  · intro h
    have hd : (frame ui).DrawList = ui.DrawList := by
      simp [frame, ImGui.Begin, ImGui.SetNextWindowSize, h]
    refine ⟨hd, by rw [hd], by rw [hd], fun he => ?_⟩
    rw [hd, he]
    rfl
  · intro h
    have hd : (frame ui).DrawList
        = ui.DrawList ++ [⟨ui.ClipRect, some .computeAndDraw, none⟩] := by
      simp [frame, ImGui.Begin, ImGui.SetNextWindowSize, ImGui.AddCallback, ImGui.End, h]
    refine ⟨hd, ?_⟩
    rw [hd]
    simp [callbackCount]

/-- Witness of C6: a frame with the panel hidden renders without a call, and a
frame with the panel visible carries one callback. -/
theorem frame_attaches_callback_iff_visible_witness :
    renderDrawList (frame (ImGui.newFrame false ⟨10, 20, 522, 532⟩)).DrawList (hostWorld 1)
        = some (hostWorld 1)
      ∧ callbackCount (frame (ImGui.newFrame true ⟨10, 20, 522, 532⟩)).DrawList = 1 :=
  ⟨((frame_attaches_callback_iff_visible (ImGui.newFrame false ⟨10, 20, 522, 532⟩)
      (hostWorld 1)).1 rfl).2.2.2 rfl,
   ((frame_attaches_callback_iff_visible (ImGui.newFrame true ⟨10, 20, 522, 532⟩)
      (hostWorld 1)).2 rfl).2⟩

end GLComputeDemo
